import Mathlib

set_option maxHeartbeats 1000000
set_option maxRecDepth 4096

/- Verification model of the ReachIvy career-guidance chatbot
   (src/main.py, src/utils/chatbot.py).  External effects — Gemini LLM calls,
   gTTS audio synthesis, json.loads, datetime.now — are modelled as oracle
   fields of an Env record; everything else is translated directly from the
   Python source.  Python exceptions are modelled with Except; the broad
   try/except wrappers of the source become the corresponding catch. -/

/-- JSON-ish Python values, as produced by json.loads and stored in the
student profile / career plan dicts.  Numbers are modelled as rationals. -/
inductive JVal where
  | null : JVal
  | bool : Bool → JVal
  | num : ℚ → JVal
  | str : String → JVal
  | arr : List JVal → JVal
  | obj : List (String × JVal) → JVal

/-- A Python dict with string keys (insertion ordered). -/
abbrev JDict := List (String × JVal)

/-- Python d.get(k, dflt). -/
def jGetD (d : JDict) (k : String) (dflt : JVal) : JVal :=
  match d.lookup k with
  | some v => v
  | none => dflt

/-- Python (k in d). -/
def jHasKey (d : JDict) (k : String) : Bool :=
  (d.lookup k).isSome

/-- Python d[k] = v: replace the binding in place, or append a new one. -/
def dictSet (d : JDict) (k : String) (v : JVal) : JDict :=
  if (d.lookup k).isSome then d.map (fun p => if p.1 = k then (k, v) else p)
  else d ++ [(k, v)]

/-- Python truthiness of a JSON value. -/
def jTruthy : JVal → Bool
  | .null => false
  | .bool b => b
  | .num n => n ≠ 0
  | .str t => t ≠ ""
  | .arr l => !l.isEmpty
  | .obj l => !l.isEmpty

/-- Python (v == some-string-literal) for a dynamically typed v. -/
def jEqStr (v : JVal) (t : String) : Bool :=
  match v with
  | .str u => u == t
  | _ => false

/-- Python f-string rendering of a value.  Scalars are rendered faithfully;
the rendering of lists/dicts is abbreviated (it is never proof-relevant:
the interpolated plan fields feed only human-readable message text). -/
def jDisplay : JVal → String
  | .str t => t
  | .num n => toString n
  | .bool b => if b then "True" else "False"
  | .null => "None"
  | .arr _ => "[...]"
  | .obj _ => "\x7b...\x7d"

/-- Python v.get(k, dflt) on a dynamically typed v: raises (AttributeError)
unless v is a dict. -/
def jGetAttr (v : JVal) (k : String) (dflt : JVal) : Except Unit JVal :=
  match v with
  | .obj fields => Except.ok (jGetD fields k dflt)
  | _ => Except.error ()

/-- Python iteration over a value, as used by list.extend(v): a list yields
its elements, a string its characters, a dict its keys; scalars raise. -/
def jIterElems : JVal → Except Unit (List JVal)
  | .arr l => Except.ok l
  | .str t => Except.ok (t.toList.map (fun c => JVal.str (String.mk [c])))
  | .obj d => Except.ok (d.map (fun p => JVal.str p.1))
  | _ => Except.error ()

/-- Python target.extend(v): target must itself be a list, else raises. -/
def listExtendJ (target v : JVal) : Except Unit JVal :=
  match target with
  | .arr l => (jIterElems v).map (fun es => JVal.arr (l ++ es))
  | _ => Except.error ()

/-- One element of an iterable-of-pairs payload to dict.update: the element
must itself iterate to exactly two items, the first being the key.  A JSON
two-element array, a two-character string and a two-entry dict (which
iterates to its two keys) are such pairs.  In this string-keyed dict model
a pair whose key is not a string is treated as a failure; CPython would
admit any hashable key there, but a non-string key cannot enter the
string-keyed profile dict, and no proved statement depends on that case. -/
def updatePairOf : JVal → Option (String × JVal)
  | .arr [JVal.str k, v] => some (k, v)
  | .str t =>
      match t.toList with
      | [k, v] => some (String.mk [k], JVal.str (String.mk [v]))
      | _ => none
  | .obj [(k1, _), (k2, _)] => some (k1, JVal.str k2)
  | _ => none

/-- Python d.update(v) on the profile dict.  A mapping payload assigns key
by key and cannot fail for a JSON object.  An iterable-of-pairs payload is
consumed element by element, so when a malformed element raises
(TypeError/ValueError), the elements before it are already inserted: the
error carries the partly updated dict.  A nonempty string payload iterates
to its one-character elements and raises at the first of them (an empty
string is an empty iterable and a no-op); scalars are not iterable and
raise without mutating. -/
def dictUpdateJ (d : JDict) (v : JVal) : Except JDict JDict :=
  match v with
  | .obj l => Except.ok (l.foldl (fun acc p => dictSet acc p.1 p.2) d)
  | .arr elems =>
      elems.foldl
        (fun acc e =>
          match acc with
          | .error d1 => Except.error d1
          | .ok d1 =>
              match updatePairOf e with
              | some (k, w) => Except.ok (dictSet d1 k w)
              | none => Except.error d1)
        (Except.ok d)
  | .str t => if t.isEmpty then Except.ok d else Except.error d
  | _ => Except.error d

/-- Python ", ".join(v): a list must contain only strings (else TypeError);
joining a string joins its characters; joining a dict joins its keys. -/
def pyJoinComma : JVal → Except Unit String
  | .arr l => do
      let parts ← l.mapM (fun v => match v with
        | JVal.str t => Except.ok t
        | _ => Except.error ())
      Except.ok (String.intercalate ", " parts)
  | .str t => Except.ok (String.intercalate ", " (t.toList.map (fun c => String.mk [c])))
  | .obj d => Except.ok (String.intercalate ", " (d.map (fun p => p.1)))
  | _ => Except.error ()

-- ==================== string helpers (Python primitives) ====================

/-- Python str.strip() (whitespace per Char.isWhitespace). -/
def pyStrip (s : String) : String :=
  String.mk (((s.toList.dropWhile Char.isWhitespace).reverse.dropWhile Char.isWhitespace).reverse)

/-- Python (sub in s): substring containment. -/
def strContainsSub (s sub : String) : Bool :=
  (s.splitOn sub).length ≥ 2

/-- Collapse runs of two or more spaces into one (second pass of
re.sub(r.\s+., " ", t) after whitespace has been mapped to spaces). -/
def dedupeSpaces : List Char → List Char
  | [] => []
  | [c] => [c]
  | a :: b :: r =>
      if a = ' ' && b = ' ' then dedupeSpaces (b :: r)
      else a :: dedupeSpaces (b :: r)

/-- Python str.title(): uppercase a letter that follows a non-letter,
lowercase the rest. -/
def pyTitleGo : Bool → List Char → List Char
  | _, [] => []
  | prevAlpha, c :: rest =>
      (if prevAlpha then c.toLower else c.toUpper) :: pyTitleGo c.isAlpha rest

def pyTitle (s : String) : String :=
  String.mk (pyTitleGo false s.toList)

/-- Python len(text.split()): whitespace-separated word count, empties dropped. -/
def wordCountOf (t : String) : Nat :=
  ((t.split Char.isWhitespace).filter (fun w => w ≠ "")).length

-- ==================== conversation state (CareerGuidanceCounselor) ====================

/-- One entry of self.conversation.  The Python entries are dicts with
slightly different key sets for user/assistant/plan messages; absent keys
are modelled with none. -/
structure Msg where
  role : String
  content : String
  timestamp : String
  language : Option String := none
  intent : Option JVal := none
  phase : Option String := none
  plan_generated : Option Bool := none

/-- The mutable per-session state of CareerGuidanceCounselor. -/
structure CounselorState where
  session_id : String
  conversation : List Msg
  discovery_started : Bool
  exploration_completed : Bool
  plan_generated : Bool
  current_language : String
  current_phase : String
  student_profile : JDict
  career_plan : Option JDict

/-- The empty student profile built in __init__ and clear_conversation. -/
def default_student_profile : JDict :=
  [("grade", JVal.null), ("age_range", JVal.null), ("location", JVal.null),
   ("interests", JVal.arr []), ("strengths", JVal.arr []),
   ("constraints", JVal.arr []), ("selected_career", JVal.null),
   ("learning_style", JVal.null)]

/-- CareerGuidanceCounselor.__init__ session state. -/
def init_state (sid : String) : CounselorState :=
  { session_id := sid
    conversation := []
    discovery_started := false
    exploration_completed := false
    plan_generated := false
    current_language := "en"
    current_phase := "initial"
    student_profile := default_student_profile
    career_plan := none }

/-- clear_conversation (chatbot.py lines 928-947). -/
def clear_conversation (s : CounselorState) : CounselorState :=
  { s with
    conversation := []
    discovery_started := false
    exploration_completed := false
    plan_generated := false
    current_language := "en"
    current_phase := "initial"
    student_profile := default_student_profile
    career_plan := none }

/-- len([m for m in self.conversation if m["role"] == "user"]). -/
def user_count (s : CounselorState) : Nat :=
  s.conversation.countP (fun m => m.role == "user")

/-- The dict returned by get_stats (chatbot.py lines 949-965). -/
structure Stats where
  session_id : String
  total_messages : Nat
  user_messages : Nat
  assistant_messages : Nat
  discovery_started : Bool
  current_phase : String
  current_language : String
  plan_generated : Bool
  student_profile : JDict
  last_interaction : Option String

def get_stats (s : CounselorState) : Stats :=
  { session_id := s.session_id
    total_messages := s.conversation.length
    user_messages := s.conversation.countP (fun m => m.role == "user")
    assistant_messages := s.conversation.countP (fun m => m.role == "assistant")
    discovery_started := s.discovery_started
    current_phase := s.current_phase
    current_language := s.current_language
    plan_generated := s.plan_generated
    student_profile := s.student_profile
    last_interaction := (s.conversation.getLast?).map (fun m => m.timestamp) }

-- ==================== environment (external effects) ====================

/-- Outcome of one model.generate_content call: the returned text, or a
raised exception. -/
inductive LLMOutcome where
  | ok : String → LLMOutcome
  | err : LLMOutcome

/-- Library primitives used by _detect_language that depend on full Unicode
tables: Python str.isalpha, and re.search of the five hinglish_patterns
(indexed 0..4) against the lowercased text. -/
structure DetectPrims where
  isAlpha : Char → Bool
  patternSearch : Nat → String → Bool

/-- External-world oracle for one request: one field per external call site,
plus json.loads and the wall clock. -/
structure Env where
  prims : DetectPrims
  classifyResult : LLMOutcome
  firstMessageResult : LLMOutcome
  discoveryResult : LLMOutcome
  matchesResult : LLMOutcome
  uncertaintyResult : LLMOutcome
  progressResult : LLMOutcome
  casualResult : LLMOutcome
  planResult : LLMOutcome
  ttsResult : Option String
  jsonLoads : String → Option JDict
  now : String
  nowMonth : String

-- ==================== language detection (_detect_language) ====================

/-- Count of characters in the Devanagari block U+0900..U+097F. -/
def devanagariCount (t : String) : Nat :=
  t.toList.countP (fun c => 0x900 ≤ c.toNat && c.toNat ≤ 0x97F)

/-- Count of alphabetic characters (Python str.isalpha, via the oracle). -/
def alphaCount (P : DetectPrims) (t : String) : Nat :=
  t.toList.countP P.isAlpha

/-- Number of the five romanized-Hindi regex patterns that match. -/
def hinglishMatchCount (P : DetectPrims) (tl : String) : Nat :=
  (List.range 5).countP (fun i => P.patternSearch i tl)

/-- _detect_language (chatbot.py lines 89-136).  The float thresholds
hindi_ratio > 0.3, hindi_ratio > 0.05 and hinglish_ratio > 0.25 are written
as exact rational comparisons.  The function is pure, hence deterministic. -/
def detect_language (P : DetectPrims) (text : String) : String :=
  let t := pyStrip text
  if t = "" then "en"
  else
    let hindi_chars := devanagariCount t
    let total_alpha := alphaCount P t
    if 0 < total_alpha ∧ 3 * total_alpha < 10 * hindi_chars then "hi"
    else if 0 < total_alpha ∧ total_alpha < 20 * hindi_chars then "hinglish"
    else
      let text_lower := t.toLower
      let hinglish_matches := hinglishMatchCount P text_lower
      let total_words := wordCountOf text_lower
      if 0 < total_words ∧ total_words < 4 * hinglish_matches then "hinglish"
      else "en"

-- ==================== text to speech (text_to_speech) ====================

/-- The character class stripped by re.sub in text_to_speech. -/
def ttsStripSet : List Char :=
  ['*', '_', Char.ofNat 96, '[', ']', '#', Char.ofNat 123, Char.ofNat 125,
   '(', ')', '|']

/-- clean_text computation of text_to_speech: drop the special characters,
collapse whitespace runs to single spaces, strip. -/
def tts_clean (text : String) : String :=
  let noSpecial := text.toList.filter (fun c => !(ttsStripSet.contains c))
  let spaced := noSpecial.map (fun c => if c.isWhitespace then ' ' else c)
  pyStrip (String.mk (dedupeSpaces spaced))

/-- text_to_speech (chatbot.py lines 140-170): returns None for too-short
cleaned text, otherwise the gTTS outcome from the environment (None models
a raised-and-caught gTTS error).  The 3000-char truncation only shortens
the text handed to gTTS and is not observable in the model. -/
def text_to_speech_run (env : Env) (text : String) : Option String :=
  let clean := tts_clean text
  if clean = "" ∨ clean.length < 3 then none
  else env.ttsResult

/-- messages.get(self.current_language, messages["en"]) for the three-way
message tables. -/
def pick_lang (lang en hi hing : String) : String :=
  if lang = "hi" then hi
  else if lang = "hinglish" then hing
  else en
-- Language-keyed message tables, transcribed byte-for-byte from src/utils/chatbot.py
-- (non-ASCII characters written as \u escapes). Each models the Python pattern
-- messages.get(self.current_language, messages["en"]) via pick_lang.

def first_message_fallback (lang : String) : String :=
  pick_lang lang "Hi! I\x27m your AI career counselor. I help high school students discover exciting career paths. What grade are you in?" "\u00e0\u00a4\u00a8\u00e0\u00a4\u00ae\u00e0\u00a4\u00b8\u00e0\u00a5\u00e0\u00a4\u00a4\u00e0\u00a5\u2021! \u00e0\u00a4\u00ae\u00e0\u00a5\u02c6\u00e0\u00a4\u201a \u00e0\u00a4\u2020\u00e0\u00a4\u00aa\u00e0\u00a4\u2022\u00e0\u00a4\u00be AI \u00e0\u00a4\u2022\u00e0\u00a4\u00b0\u00e0\u00a4\u00bf\u00e0\u00a4\u00af\u00e0\u00a4\u00b0 \u00e0\u00a4\u2022\u00e0\u00a4\u00be\u00e0\u00a4\u2030\u00e0\u00a4\u201a\u00e0\u00a4\u00b8\u00e0\u00a4\u00b2\u00e0\u00a4\u00b0 \u00e0\u00a4\u00b9\u00e0\u00a5\u201a\u00e0\u00a4\u00e0\u00a5\u00a4 \u00e0\u00a4\u00ae\u00e0\u00a5\u02c6\u00e0\u00a4\u201a \u00e0\u00a4\u00b9\u00e0\u00a4\u00be\u00e0\u00a4\u02c6 \u00e0\u00a4\u00b8\u00e0\u00a5\u00e0\u00a4\u2022\u00e0\u00a5\u201a\u00e0\u00a4\u00b2 \u00e0\u00a4\u2022\u00e0\u00a5\u2021 \u00e0\u00a4\u203a\u00e0\u00a4\u00be\u00e0\u00a4\u00a4\u00e0\u00a5\u00e0\u00a4\u00b0\u00e0\u00a5\u2039\u00e0\u00a4\u201a \u00e0\u00a4\u2022\u00e0\u00a5\u2039 \u00e0\u00a4\u2022\u00e0\u00a4\u00b0\u00e0\u00a4\u00bf\u00e0\u00a4\u00af\u00e0\u00a4\u00b0 \u00e0\u00a4\u00ae\u00e0\u00a4\u00be\u00e0\u00a4\u00b0\u00e0\u00a5\u00e0\u00a4\u2014 \u00e0\u00a4\u2013\u00e0\u00a5\u2039\u00e0\u00a4\u0153\u00e0\u00a4\u00a8\u00e0\u00a5\u2021 \u00e0\u00a4\u00ae\u00e0\u00a5\u2021\u00e0\u00a4\u201a \u00e0\u00a4\u00ae\u00e0\u00a4\u00a6\u00e0\u00a4\u00a6 \u00e0\u00a4\u2022\u00e0\u00a4\u00b0\u00e0\u00a4\u00a4\u00e0\u00a4\u00be \u00e0\u00a4\u00b9\u00e0\u00a5\u201a\u00e0\u00a4\u00e0\u00a5\u00a4 \u00e0\u00a4\u2020\u00e0\u00a4\u00aa \u00e0\u00a4\u2022\u00e0\u00a4\u00bf\u00e0\u00a4\u00b8 \u00e0\u00a4\u2022\u00e0\u00a4\u2022\u00e0\u00a5\u00e0\u00a4\u00b7\u00e0\u00a4\u00be \u00e0\u00a4\u00ae\u00e0\u00a5\u2021\u00e0\u00a4\u201a \u00e0\u00a4\u00b9\u00e0\u00a5\u02c6\u00e0\u00a4\u201a?" "Namaste! Main aapka AI career counselor hoon. Main students ko career paths discover karne mein help karta hoon. Aap kis grade mein ho?"

def fallback_discovery_questions (lang : String) : List String :=
  if lang = "hi" then ["\u00e0\u00a4\u2020\u00e0\u00a4\u00aa \u00e0\u00a4\u2022\u00e0\u00a4\u00bf\u00e0\u00a4\u00b8 \u00e0\u00a4\u2022\u00e0\u00a4\u2022\u00e0\u00a5\u00e0\u00a4\u00b7\u00e0\u00a4\u00be \u00e0\u00a4\u00ae\u00e0\u00a5\u2021\u00e0\u00a4\u201a \u00e0\u00a4\u00b9\u00e0\u00a5\u02c6\u00e0\u00a4\u201a?", "\u00e0\u00a4\u00b8\u00e0\u00a5\u00e0\u00a4\u2022\u00e0\u00a5\u201a\u00e0\u00a4\u00b2 \u00e0\u00a4\u00ae\u00e0\u00a5\u2021\u00e0\u00a4\u201a \u00e0\u00a4\u2020\u00e0\u00a4\u00aa\u00e0\u00a4\u2022\u00e0\u00a5\u2039 \u00e0\u00a4\u2022\u00e0\u00a5\u0152\u00e0\u00a4\u00a8 \u00e0\u00a4\u00b8\u00e0\u00a5\u2021 \u00e0\u00a4\u00b5\u00e0\u00a4\u00bf\u00e0\u00a4\u00b7\u00e0\u00a4\u00af \u00e0\u00a4\u00b8\u00e0\u00a4\u00ac\u00e0\u00a4\u00b8\u00e0\u00a5\u2021 \u00e0\u00a4\u2026\u00e0\u00a4\u00a7\u00e0\u00a4\u00bf\u00e0\u00a4\u2022 \u00e0\u00a4\u00aa\u00e0\u00a4\u00b8\u00e0\u00a4\u201a\u00e0\u00a4\u00a6 \u00e0\u00a4\u00b9\u00e0\u00a5\u02c6\u00e0\u00a4\u201a?", "\u00e0\u00a4\u00b8\u00e0\u00a5\u00e0\u00a4\u2022\u00e0\u00a5\u201a\u00e0\u00a4\u00b2 \u00e0\u00a4\u2022\u00e0\u00a5\u2021 \u00e0\u00a4\u00ac\u00e0\u00a4\u00be\u00e0\u00a4\u00b9\u00e0\u00a4\u00b0 \u00e0\u00a4\u2026\u00e0\u00a4\u00aa\u00e0\u00a4\u00a8\u00e0\u00a5\u2021 \u00e0\u00a4\u00b6\u00e0\u00a5\u0152\u00e0\u00a4\u2022 \u00e0\u00a4\u00af\u00e0\u00a4\u00be \u00e0\u00a4\u00b0\u00e0\u00a5\u00e0\u00a4\u0161\u00e0\u00a4\u00bf\u00e0\u00a4\u00af\u00e0\u00a5\u2039\u00e0\u00a4\u201a \u00e0\u00a4\u2022\u00e0\u00a5\u2021 \u00e0\u00a4\u00ac\u00e0\u00a4\u00be\u00e0\u00a4\u00b0\u00e0\u00a5\u2021 \u00e0\u00a4\u00ae\u00e0\u00a5\u2021\u00e0\u00a4\u201a \u00e0\u00a4\u00ac\u00e0\u00a4\u00a4\u00e0\u00a4\u00be\u00e0\u00a4\u00e0\u00a4\u201a\u00e0\u00a5\u00a4", "\u00e0\u00a4\u2020\u00e0\u00a4\u00aa \u00e0\u00a4\u00b8\u00e0\u00a5\u00e0\u00a4\u00b5\u00e0\u00a4\u00be\u00e0\u00a4\u00ad\u00e0\u00a4\u00be\u00e0\u00a4\u00b5\u00e0\u00a4\u00bf\u00e0\u00a4\u2022 \u00e0\u00a4\u00b0\u00e0\u00a5\u201a\u00e0\u00a4\u00aa \u00e0\u00a4\u00b8\u00e0\u00a5\u2021 \u00e0\u00a4\u2022\u00e0\u00a4\u00bf\u00e0\u00a4\u00b8 \u00e0\u00a4\u0161\u00e0\u00a5\u20ac\u00e0\u00a4\u0153\u00e0\u00a4\u00bc \u00e0\u00a4\u00ae\u00e0\u00a5\u2021\u00e0\u00a4\u201a \u00e0\u00a4\u2026\u00e0\u00a4\u0161\u00e0\u00a5\u00e0\u00a4\u203a\u00e0\u00a5\u2021 \u00e0\u00a4\u00b9\u00e0\u00a5\u02c6\u00e0\u00a4\u201a?", "\u00e0\u00a4\u2022\u00e0\u00a5\u00e0\u00a4\u00af\u00e0\u00a4\u00be \u00e0\u00a4\u2022\u00e0\u00a5\u2039\u00e0\u00a4\u02c6 \u00e0\u00a4\u2022\u00e0\u00a4\u00b0\u00e0\u00a4\u00bf\u00e0\u00a4\u00af\u00e0\u00a4\u00b0 \u00e0\u00a4\u2022\u00e0\u00a5\u00e0\u00a4\u00b7\u00e0\u00a5\u2021\u00e0\u00a4\u00a4\u00e0\u00a5\u00e0\u00a4\u00b0 \u00e0\u00a4\u00b9\u00e0\u00a5\u02c6 \u00e0\u00a4\u0153\u00e0\u00a4\u00bf\u00e0\u00a4\u00b8\u00e0\u00a4\u2022\u00e0\u00a5\u2021 \u00e0\u00a4\u00ac\u00e0\u00a4\u00be\u00e0\u00a4\u00b0\u00e0\u00a5\u2021 \u00e0\u00a4\u00ae\u00e0\u00a5\u2021\u00e0\u00a4\u201a \u00e0\u00a4\u2020\u00e0\u00a4\u00aa \u00e0\u00a4\u2030\u00e0\u00a4\u00a4\u00e0\u00a5\u00e0\u00a4\u00b8\u00e0\u00a5\u00e0\u00a4\u2022 \u00e0\u00a4\u00b9\u00e0\u00a5\u02c6\u00e0\u00a4\u201a?"]
  else if lang = "hinglish" then ["Aap kis class mein ho?", "School mein aapko konse subjects sabse zyada pasand hain?", "School ke bahar apne hobbies ya interests ke baare mein batao.", "Aap naturally kis cheez mein acche ho?", "Kya koi career field hai jiske baare mein aap curious ho?"]
  else ["What grade are you in?", "Which subjects do you enjoy most in school?", "Tell me about your hobbies or interests outside school.", "What are you naturally good at?", "Are there any career fields you\x27re curious about?"]

def career_match_fallback (lang : String) : String :=
  pick_lang lang "Based on what you\x27ve told me, here are some exciting career paths to explore: Technology (Software, Data Science), Healthcare (Medicine, Biotech), Business (Marketing, Finance), or Creative fields (Design, Content). Which interests you most?" "\u00e0\u00a4\u2020\u00e0\u00a4\u00aa\u00e0\u00a4\u00a8\u00e0\u00a5\u2021 \u00e0\u00a4\u0153\u00e0\u00a5\u2039 \u00e0\u00a4\u00ac\u00e0\u00a4\u00a4\u00e0\u00a4\u00be\u00e0\u00a4\u00af\u00e0\u00a4\u00be \u00e0\u00a4\u2030\u00e0\u00a4\u00b8\u00e0\u00a4\u2022\u00e0\u00a5\u2021 \u00e0\u00a4\u2020\u00e0\u00a4\u00a7\u00e0\u00a4\u00be\u00e0\u00a4\u00b0 \u00e0\u00a4\u00aa\u00e0\u00a4\u00b0, \u00e0\u00a4\u00af\u00e0\u00a4\u00b9\u00e0\u00a4\u00be\u00e0\u00a4\u201a \u00e0\u00a4\u2022\u00e0\u00a5\u00e0\u00a4\u203a \u00e0\u00a4\u00b0\u00e0\u00a5\u2039\u00e0\u00a4\u00ae\u00e0\u00a4\u00be\u00e0\u00a4\u201a\u00e0\u00a4\u0161\u00e0\u00a4\u2022 \u00e0\u00a4\u2022\u00e0\u00a4\u00b0\u00e0\u00a4\u00bf\u00e0\u00a4\u00af\u00e0\u00a4\u00b0 \u00e0\u00a4\u00aa\u00e0\u00a4\u00a5 \u00e0\u00a4\u00b9\u00e0\u00a5\u02c6\u00e0\u00a4\u201a: \u00e0\u00a4\u0178\u00e0\u00a5\u2021\u00e0\u00a4\u2022\u00e0\u00a5\u00e0\u00a4\u00a8\u00e0\u00a5\u2039\u00e0\u00a4\u00b2\u00e0\u00a5\u2030\u00e0\u00a4\u0153\u00e0\u00a5\u20ac (\u00e0\u00a4\u00b8\u00e0\u00a5\u2030\u00e0\u00a4\u00ab\u00e0\u00a5\u00e0\u00a4\u0178\u00e0\u00a4\u00b5\u00e0\u00a5\u2021\u00e0\u00a4\u00af\u00e0\u00a4\u00b0, \u00e0\u00a4\u00a1\u00e0\u00a5\u2021\u00e0\u00a4\u0178\u00e0\u00a4\u00be \u00e0\u00a4\u00b8\u00e0\u00a4\u00be\u00e0\u00a4\u2021\u00e0\u00a4\u201a\u00e0\u00a4\u00b8), \u00e0\u00a4\u00b9\u00e0\u00a5\u2021\u00e0\u00a4\u00b2\u00e0\u00a5\u00e0\u00a4\u00a5\u00e0\u00a4\u2022\u00e0\u00a5\u2021\u00e0\u00a4\u00af\u00e0\u00a4\u00b0 (\u00e0\u00a4\u00ae\u00e0\u00a5\u2021\u00e0\u00a4\u00a1\u00e0\u00a4\u00bf\u00e0\u00a4\u00b8\u00e0\u00a4\u00bf\u00e0\u00a4\u00a8, \u00e0\u00a4\u00ac\u00e0\u00a4\u00be\u00e0\u00a4\u00af\u00e0\u00a5\u2039\u00e0\u00a4\u0178\u00e0\u00a5\u2021\u00e0\u00a4\u2022), \u00e0\u00a4\u00ac\u00e0\u00a4\u00bf\u00e0\u00a4\u0153\u00e0\u00a4\u00a8\u00e0\u00a5\u2021\u00e0\u00a4\u00b8 (\u00e0\u00a4\u00ae\u00e0\u00a4\u00be\u00e0\u00a4\u00b0\u00e0\u00a5\u00e0\u00a4\u2022\u00e0\u00a5\u2021\u00e0\u00a4\u0178\u00e0\u00a4\u00bf\u00e0\u00a4\u201a\u00e0\u00a4\u2014, \u00e0\u00a4\u00ab\u00e0\u00a4\u00be\u00e0\u00a4\u2021\u00e0\u00a4\u00a8\u00e0\u00a5\u2021\u00e0\u00a4\u201a\u00e0\u00a4\u00b8), \u00e0\u00a4\u00af\u00e0\u00a4\u00be \u00e0\u00a4\u2022\u00e0\u00a5\u00e0\u00a4\u00b0\u00e0\u00a4\u00bf\u00e0\u00a4\u00e0\u00a4\u0178\u00e0\u00a4\u00bf\u00e0\u00a4\u00b5 \u00e0\u00a4\u00ab\u00e0\u00a5\u20ac\u00e0\u00a4\u00b2\u00e0\u00a5\u00e0\u00a4\u00a1 (\u00e0\u00a4\u00a1\u00e0\u00a4\u00bf\u00e0\u00a4\u0153\u00e0\u00a4\u00bc\u00e0\u00a4\u00be\u00e0\u00a4\u2021\u00e0\u00a4\u00a8, \u00e0\u00a4\u2022\u00e0\u00a4\u201a\u00e0\u00a4\u0178\u00e0\u00a5\u2021\u00e0\u00a4\u201a\u00e0\u00a4\u0178)\u00e0\u00a5\u00a4 \u00e0\u00a4\u2022\u00e0\u00a5\u0152\u00e0\u00a4\u00a8 \u00e0\u00a4\u00b8\u00e0\u00a4\u00be \u00e0\u00a4\u2020\u00e0\u00a4\u00aa\u00e0\u00a4\u2022\u00e0\u00a5\u2039 \u00e0\u00a4\u00b8\u00e0\u00a4\u00ac\u00e0\u00a4\u00b8\u00e0\u00a5\u2021 \u00e0\u00a4\u2026\u00e0\u00a4\u00a7\u00e0\u00a4\u00bf\u00e0\u00a4\u2022 \u00e0\u00a4\u00b0\u00e0\u00a5\u00e0\u00a4\u0161\u00e0\u00a4\u00bf\u00e0\u00a4\u2022\u00e0\u00a4\u00b0 \u00e0\u00a4\u00b2\u00e0\u00a4\u2014\u00e0\u00a4\u00a4\u00e0\u00a4\u00be \u00e0\u00a4\u00b9\u00e0\u00a5\u02c6?" "Aapne jo bataya uske basis par, yahan kuch exciting career paths hain: Technology (Software, Data Science), Healthcare (Medicine, Biotech), Business (Marketing, Finance), ya Creative fields (Design, Content). Kaunsa aapko sabse zyada interesting lagta hai?"

def insufficient_info_message (lang : String) : String :=
  pick_lang lang "I need a bit more information to create a comprehensive career plan for you. Could you tell me more about your interests and goals?" "\u00e0\u00a4\u2020\u00e0\u00a4\u00aa\u00e0\u00a4\u2022\u00e0\u00a5\u2021 \u00e0\u00a4\u00b2\u00e0\u00a4\u00bf\u00e0\u00a4 \u00e0\u00a4\u00e0\u00a4\u2022 \u00e0\u00a4\u00b5\u00e0\u00a5\u00e0\u00a4\u00af\u00e0\u00a4\u00be\u00e0\u00a4\u00aa\u00e0\u00a4\u2022 \u00e0\u00a4\u2022\u00e0\u00a4\u00b0\u00e0\u00a4\u00bf\u00e0\u00a4\u00af\u00e0\u00a4\u00b0 \u00e0\u00a4\u00af\u00e0\u00a5\u2039\u00e0\u00a4\u0153\u00e0\u00a4\u00a8\u00e0\u00a4\u00be \u00e0\u00a4\u00ac\u00e0\u00a4\u00a8\u00e0\u00a4\u00be\u00e0\u00a4\u00a8\u00e0\u00a5\u2021 \u00e0\u00a4\u2022\u00e0\u00a5\u2021 \u00e0\u00a4\u00b2\u00e0\u00a4\u00bf\u00e0\u00a4 \u00e0\u00a4\u00ae\u00e0\u00a5\u00e0\u00a4\u00e0\u00a5\u2021 \u00e0\u00a4\u00a5\u00e0\u00a5\u2039\u00e0\u00a4\u00a1\u00e0\u00a4\u00bc\u00e0\u00a5\u20ac \u00e0\u00a4\u201d\u00e0\u00a4\u00b0 \u00e0\u00a4\u0153\u00e0\u00a4\u00be\u00e0\u00a4\u00a8\u00e0\u00a4\u2022\u00e0\u00a4\u00be\u00e0\u00a4\u00b0\u00e0\u00a5\u20ac \u00e0\u00a4\u0161\u00e0\u00a4\u00be\u00e0\u00a4\u00b9\u00e0\u00a4\u00bf\u00e0\u00a4\u00e0\u00a5\u00a4 \u00e0\u00a4\u2022\u00e0\u00a5\u00e0\u00a4\u00af\u00e0\u00a4\u00be \u00e0\u00a4\u2020\u00e0\u00a4\u00aa \u00e0\u00a4\u2026\u00e0\u00a4\u00aa\u00e0\u00a4\u00a8\u00e0\u00a5\u20ac \u00e0\u00a4\u00b0\u00e0\u00a5\u00e0\u00a4\u0161\u00e0\u00a4\u00bf\u00e0\u00a4\u00af\u00e0\u00a5\u2039\u00e0\u00a4\u201a \u00e0\u00a4\u201d\u00e0\u00a4\u00b0 \u00e0\u00a4\u00b2\u00e0\u00a4\u2022\u00e0\u00a5\u00e0\u00a4\u00b7\u00e0\u00a5\u00e0\u00a4\u00af\u00e0\u00a5\u2039\u00e0\u00a4\u201a \u00e0\u00a4\u2022\u00e0\u00a5\u2021 \u00e0\u00a4\u00ac\u00e0\u00a4\u00be\u00e0\u00a4\u00b0\u00e0\u00a5\u2021 \u00e0\u00a4\u00ae\u00e0\u00a5\u2021\u00e0\u00a4\u201a \u00e0\u00a4\u201d\u00e0\u00a4\u00b0 \u00e0\u00a4\u00ac\u00e0\u00a4\u00a4\u00e0\u00a4\u00be \u00e0\u00a4\u00b8\u00e0\u00a4\u2022\u00e0\u00a4\u00a4\u00e0\u00a5\u2021 \u00e0\u00a4\u00b9\u00e0\u00a5\u02c6\u00e0\u00a4\u201a?" "Aapke liye ek comprehensive career plan banane ke liye mujhe thodi aur information chahiye. Kya aap apni interests aur goals ke baare mein aur bata sakte ho?"

def plan_generated_message_text (pc lang : String) : String :=
  pick_lang lang ("\u00e2\u0153\u2026 I\x27ve created a comprehensive career plan for you! I recommend **" ++ pc ++ "** as your primary path. The plan includes education requirements, skill development roadmap, financial planning, and application timeline. You can download it as a PDF or view the details here.") ("\u00e2\u0153\u2026 \u00e0\u00a4\u00ae\u00e0\u00a5\u02c6\u00e0\u00a4\u201a\u00e0\u00a4\u00a8\u00e0\u00a5\u2021 \u00e0\u00a4\u2020\u00e0\u00a4\u00aa\u00e0\u00a4\u2022\u00e0\u00a5\u2021 \u00e0\u00a4\u00b2\u00e0\u00a4\u00bf\u00e0\u00a4 \u00e0\u00a4\u00e0\u00a4\u2022 \u00e0\u00a4\u00b5\u00e0\u00a5\u00e0\u00a4\u00af\u00e0\u00a4\u00be\u00e0\u00a4\u00aa\u00e0\u00a4\u2022 \u00e0\u00a4\u2022\u00e0\u00a4\u00b0\u00e0\u00a4\u00bf\u00e0\u00a4\u00af\u00e0\u00a4\u00b0 \u00e0\u00a4\u00af\u00e0\u00a5\u2039\u00e0\u00a4\u0153\u00e0\u00a4\u00a8\u00e0\u00a4\u00be \u00e0\u00a4\u00ac\u00e0\u00a4\u00a8\u00e0\u00a4\u00be\u00e0\u00a4\u02c6 \u00e0\u00a4\u00b9\u00e0\u00a5\u02c6! \u00e0\u00a4\u00ae\u00e0\u00a5\u02c6\u00e0\u00a4\u201a **" ++ pc ++ "** \u00e0\u00a4\u2022\u00e0\u00a5\u2039 \u00e0\u00a4\u2020\u00e0\u00a4\u00aa\u00e0\u00a4\u2022\u00e0\u00a5\u2021 \u00e0\u00a4\u00aa\u00e0\u00a5\u00e0\u00a4\u00b0\u00e0\u00a4\u00be\u00e0\u00a4\u00a5\u00e0\u00a4\u00ae\u00e0\u00a4\u00bf\u00e0\u00a4\u2022 \u00e0\u00a4\u00ae\u00e0\u00a4\u00be\u00e0\u00a4\u00b0\u00e0\u00a5\u00e0\u00a4\u2014 \u00e0\u00a4\u2022\u00e0\u00a5\u2021 \u00e0\u00a4\u00b0\u00e0\u00a5\u201a\u00e0\u00a4\u00aa \u00e0\u00a4\u00ae\u00e0\u00a5\u2021\u00e0\u00a4\u201a \u00e0\u00a4\u00b8\u00e0\u00a4\u00b2\u00e0\u00a4\u00be\u00e0\u00a4\u00b9 \u00e0\u00a4\u00a6\u00e0\u00a5\u2021\u00e0\u00a4\u00a4\u00e0\u00a4\u00be \u00e0\u00a4\u00b9\u00e0\u00a5\u201a\u00e0\u00a4\u00e0\u00a5\u00a4 \u00e0\u00a4\u00af\u00e0\u00a5\u2039\u00e0\u00a4\u0153\u00e0\u00a4\u00a8\u00e0\u00a4\u00be \u00e0\u00a4\u00ae\u00e0\u00a5\u2021\u00e0\u00a4\u201a \u00e0\u00a4\u00b6\u00e0\u00a4\u00bf\u00e0\u00a4\u2022\u00e0\u00a5\u00e0\u00a4\u00b7\u00e0\u00a4\u00be \u00e0\u00a4\u2020\u00e0\u00a4\u00b5\u00e0\u00a4\u00b6\u00e0\u00a5\u00e0\u00a4\u00af\u00e0\u00a4\u2022\u00e0\u00a4\u00a4\u00e0\u00a4\u00be\u00e0\u00a4\u00e0\u00a4\u201a, \u00e0\u00a4\u2022\u00e0\u00a5\u0152\u00e0\u00a4\u00b6\u00e0\u00a4\u00b2 \u00e0\u00a4\u00b5\u00e0\u00a4\u00bf\u00e0\u00a4\u2022\u00e0\u00a4\u00be\u00e0\u00a4\u00b8 \u00e0\u00a4\u00b0\u00e0\u00a5\u2039\u00e0\u00a4\u00a1\u00e0\u00a4\u00ae\u00e0\u00a5\u02c6\u00e0\u00a4\u00aa, \u00e0\u00a4\u00b5\u00e0\u00a4\u00bf\u00e0\u00a4\u00a4\u00e0\u00a5\u00e0\u00a4\u00a4\u00e0\u00a5\u20ac\u00e0\u00a4\u00af \u00e0\u00a4\u00af\u00e0\u00a5\u2039\u00e0\u00a4\u0153\u00e0\u00a4\u00a8\u00e0\u00a4\u00be \u00e0\u00a4\u201d\u00e0\u00a4\u00b0 \u00e0\u00a4\u2020\u00e0\u00a4\u00b5\u00e0\u00a5\u2021\u00e0\u00a4\u00a6\u00e0\u00a4\u00a8 \u00e0\u00a4\u00b8\u00e0\u00a4\u00ae\u00e0\u00a4\u00af \u00e0\u00a4\u00b8\u00e0\u00a4\u00be\u00e0\u00a4\u00b0\u00e0\u00a4\u00a3\u00e0\u00a5\u20ac \u00e0\u00a4\u00b6\u00e0\u00a4\u00be\u00e0\u00a4\u00ae\u00e0\u00a4\u00bf\u00e0\u00a4\u00b2 \u00e0\u00a4\u00b9\u00e0\u00a5\u02c6\u00e0\u00a5\u00a4 \u00e0\u00a4\u2020\u00e0\u00a4\u00aa \u00e0\u00a4\u2021\u00e0\u00a4\u00b8\u00e0\u00a5\u2021 PDF \u00e0\u00a4\u2022\u00e0\u00a5\u2021 \u00e0\u00a4\u00b0\u00e0\u00a5\u201a\u00e0\u00a4\u00aa \u00e0\u00a4\u00ae\u00e0\u00a5\u2021\u00e0\u00a4\u201a \u00e0\u00a4\u00a1\u00e0\u00a4\u00be\u00e0\u00a4\u2030\u00e0\u00a4\u00a8\u00e0\u00a4\u00b2\u00e0\u00a5\u2039\u00e0\u00a4\u00a1 \u00e0\u00a4\u2022\u00e0\u00a4\u00b0 \u00e0\u00a4\u00b8\u00e0\u00a4\u2022\u00e0\u00a4\u00a4\u00e0\u00a5\u2021 \u00e0\u00a4\u00b9\u00e0\u00a5\u02c6\u00e0\u00a4\u201a \u00e0\u00a4\u00af\u00e0\u00a4\u00be \u00e0\u00a4\u00b5\u00e0\u00a4\u00bf\u00e0\u00a4\u00b5\u00e0\u00a4\u00b0\u00e0\u00a4\u00a3 \u00e0\u00a4\u00af\u00e0\u00a4\u00b9\u00e0\u00a4\u00be\u00e0\u00a4 \u00e0\u00a4\u00a6\u00e0\u00a5\u2021\u00e0\u00a4\u2013 \u00e0\u00a4\u00b8\u00e0\u00a4\u2022\u00e0\u00a4\u00a4\u00e0\u00a5\u2021 \u00e0\u00a4\u00b9\u00e0\u00a5\u02c6\u00e0\u00a4\u201a\u00e0\u00a5\u00a4") ("\u00e2\u0153\u2026 Maine aapke liye ek comprehensive career plan banayi hai! Main **" ++ pc ++ "** ko aapke primary path ke taur par recommend karta hoon. Plan mein education requirements, skill development roadmap, financial planning, aur application timeline shamil hai. Aap ise PDF ke roop mein download kar sakte ho ya details yahan dekh sakte ho.")

def plan_error_message (lang : String) : String :=
  pick_lang lang "I encountered an issue generating your career plan. Let\x27s continue our conversation to gather more information, then try again." "\u00e0\u00a4\u2020\u00e0\u00a4\u00aa\u00e0\u00a4\u2022\u00e0\u00a5\u20ac \u00e0\u00a4\u2022\u00e0\u00a4\u00b0\u00e0\u00a4\u00bf\u00e0\u00a4\u00af\u00e0\u00a4\u00b0 \u00e0\u00a4\u00af\u00e0\u00a5\u2039\u00e0\u00a4\u0153\u00e0\u00a4\u00a8\u00e0\u00a4\u00be \u00e0\u00a4\u00ac\u00e0\u00a4\u00a8\u00e0\u00a4\u00be\u00e0\u00a4\u00a4\u00e0\u00a5\u2021 \u00e0\u00a4\u00b8\u00e0\u00a4\u00ae\u00e0\u00a4\u00af \u00e0\u00a4\u00ae\u00e0\u00a5\u00e0\u00a4\u00e0\u00a5\u2021 \u00e0\u00a4\u00e0\u00a4\u2022 \u00e0\u00a4\u00b8\u00e0\u00a4\u00ae\u00e0\u00a4\u00b8\u00e0\u00a5\u00e0\u00a4\u00af\u00e0\u00a4\u00be \u00e0\u00a4\u2020\u00e0\u00a4\u02c6\u00e0\u00a5\u00a4 \u00e0\u00a4\u2020\u00e0\u00a4\u2021\u00e0\u00a4 \u00e0\u00a4\u2026\u00e0\u00a4\u00a7\u00e0\u00a4\u00bf\u00e0\u00a4\u2022 \u00e0\u00a4\u0153\u00e0\u00a4\u00be\u00e0\u00a4\u00a8\u00e0\u00a4\u2022\u00e0\u00a4\u00be\u00e0\u00a4\u00b0\u00e0\u00a5\u20ac \u00e0\u00a4\u00e0\u00a4\u2022\u00e0\u00a4\u00a4\u00e0\u00a5\u00e0\u00a4\u00b0 \u00e0\u00a4\u2022\u00e0\u00a4\u00b0\u00e0\u00a4\u00a8\u00e0\u00a5\u2021 \u00e0\u00a4\u2022\u00e0\u00a5\u2021 \u00e0\u00a4\u00b2\u00e0\u00a4\u00bf\u00e0\u00a4 \u00e0\u00a4\u2026\u00e0\u00a4\u00aa\u00e0\u00a4\u00a8\u00e0\u00a5\u20ac \u00e0\u00a4\u00ac\u00e0\u00a4\u00be\u00e0\u00a4\u00a4\u00e0\u00a4\u0161\u00e0\u00a5\u20ac\u00e0\u00a4\u00a4 \u00e0\u00a4\u0153\u00e0\u00a4\u00be\u00e0\u00a4\u00b0\u00e0\u00a5\u20ac \u00e0\u00a4\u00b0\u00e0\u00a4\u2013\u00e0\u00a5\u2021\u00e0\u00a4\u201a, \u00e0\u00a4\u00ab\u00e0\u00a4\u00bf\u00e0\u00a4\u00b0 \u00e0\u00a4\u00aa\u00e0\u00a5\u00e0\u00a4\u00a8\u00e0\u00a4\u0192 \u00e0\u00a4\u00aa\u00e0\u00a5\u00e0\u00a4\u00b0\u00e0\u00a4\u00af\u00e0\u00a4\u00be\u00e0\u00a4\u00b8 \u00e0\u00a4\u2022\u00e0\u00a4\u00b0\u00e0\u00a5\u2021\u00e0\u00a4\u201a\u00e0\u00a5\u00a4" "Aapki career plan banate samay mujhe ek issue aaya. Chalo aur information gather karne ke liye apni baatcheet jari rakhein, phir try karte hain."

def uncertainty_fallback (lang : String) : String :=
  pick_lang lang "That\x27s completely normal! Most students feel this way. Let\x27s explore together. What grade are you in?" "\u00e0\u00a4\u00af\u00e0\u00a4\u00b9 \u00e0\u00a4\u00ac\u00e0\u00a4\u00bf\u00e0\u00a4\u00b2\u00e0\u00a5\u00e0\u00a4\u2022\u00e0\u00a5\u00e0\u00a4\u00b2 \u00e0\u00a4\u00b8\u00e0\u00a4\u00be\u00e0\u00a4\u00ae\u00e0\u00a4\u00be\u00e0\u00a4\u00a8\u00e0\u00a5\u00e0\u00a4\u00af \u00e0\u00a4\u00b9\u00e0\u00a5\u02c6! \u00e0\u00a4\u2026\u00e0\u00a4\u00a7\u00e0\u00a4\u00bf\u00e0\u00a4\u2022\u00e0\u00a4\u00be\u00e0\u00a4\u201a\u00e0\u00a4\u00b6 \u00e0\u00a4\u203a\u00e0\u00a4\u00be\u00e0\u00a4\u00a4\u00e0\u00a5\u00e0\u00a4\u00b0 \u00e0\u00a4\u00e0\u00a4\u00b8\u00e0\u00a4\u00be \u00e0\u00a4\u00ae\u00e0\u00a4\u00b9\u00e0\u00a4\u00b8\u00e0\u00a5\u201a\u00e0\u00a4\u00b8 \u00e0\u00a4\u2022\u00e0\u00a4\u00b0\u00e0\u00a4\u00a4\u00e0\u00a5\u2021 \u00e0\u00a4\u00b9\u00e0\u00a5\u02c6\u00e0\u00a4\u201a\u00e0\u00a5\u00a4 \u00e0\u00a4\u0161\u00e0\u00a4\u00b2\u00e0\u00a4\u00bf\u00e0\u00a4 \u00e0\u00a4\u00b8\u00e0\u00a4\u00be\u00e0\u00a4\u00a5 \u00e0\u00a4\u00ae\u00e0\u00a4\u00bf\u00e0\u00a4\u00b2\u00e0\u00a4\u2022\u00e0\u00a4\u00b0 \u00e0\u00a4\u2013\u00e0\u00a5\u2039\u00e0\u00a4\u0153\u00e0\u00a4\u00a4\u00e0\u00a5\u2021 \u00e0\u00a4\u00b9\u00e0\u00a5\u02c6\u00e0\u00a4\u201a\u00e0\u00a5\u00a4 \u00e0\u00a4\u2020\u00e0\u00a4\u00aa \u00e0\u00a4\u2022\u00e0\u00a4\u00bf\u00e0\u00a4\u00b8 \u00e0\u00a4\u2022\u00e0\u00a4\u2022\u00e0\u00a5\u00e0\u00a4\u00b7\u00e0\u00a4\u00be \u00e0\u00a4\u00ae\u00e0\u00a5\u2021\u00e0\u00a4\u201a \u00e0\u00a4\u00b9\u00e0\u00a5\u02c6\u00e0\u00a4\u201a?" "Yeh bilkul normal hai! Zyada tar students aisa feel karte hain. Chalo saath mein explore karte hain. Aap kis class mein ho?"

def casual_chat_fallback (lang : String) : String :=
  pick_lang lang "I\x27m here to help with your career exploration. What would you like to know?" "\u00e0\u00a4\u00ae\u00e0\u00a5\u02c6\u00e0\u00a4\u201a \u00e0\u00a4\u2020\u00e0\u00a4\u00aa\u00e0\u00a4\u2022\u00e0\u00a5\u2021 \u00e0\u00a4\u2022\u00e0\u00a4\u00b0\u00e0\u00a4\u00bf\u00e0\u00a4\u00af\u00e0\u00a4\u00b0 \u00e0\u00a4\u2026\u00e0\u00a4\u00a8\u00e0\u00a5\u00e0\u00a4\u00b5\u00e0\u00a5\u2021\u00e0\u00a4\u00b7\u00e0\u00a4\u00a3 \u00e0\u00a4\u00ae\u00e0\u00a5\u2021\u00e0\u00a4\u201a \u00e0\u00a4\u00ae\u00e0\u00a4\u00a6\u00e0\u00a4\u00a6 \u00e0\u00a4\u2022\u00e0\u00a4\u00b0\u00e0\u00a4\u00a8\u00e0\u00a5\u2021 \u00e0\u00a4\u2022\u00e0\u00a5\u2021 \u00e0\u00a4\u00b2\u00e0\u00a4\u00bf\u00e0\u00a4 \u00e0\u00a4\u00af\u00e0\u00a4\u00b9\u00e0\u00a4\u00be\u00e0\u00a4 \u00e0\u00a4\u00b9\u00e0\u00a5\u201a\u00e0\u00a4\u00e0\u00a5\u00a4 \u00e0\u00a4\u2020\u00e0\u00a4\u00aa \u00e0\u00a4\u2022\u00e0\u00a5\u00e0\u00a4\u00af\u00e0\u00a4\u00be \u00e0\u00a4\u0153\u00e0\u00a4\u00be\u00e0\u00a4\u00a8\u00e0\u00a4\u00a8\u00e0\u00a4\u00be \u00e0\u00a4\u0161\u00e0\u00a4\u00be\u00e0\u00a4\u00b9\u00e0\u00a5\u2021\u00e0\u00a4\u201a\u00e0\u00a4\u2014\u00e0\u00a5\u2021?" "Main aapke career exploration mein help karne ke liye yahan hoon. Aap kya jaanna chahte ho?"

def existing_plan_message_text (pc lang : String) : String :=
  pick_lang lang ("I\x27ve already created a career plan for you focusing on **" ++ pc ++ "**. Would you like me to share it again or update it with new information?") ("\u00e0\u00a4\u00ae\u00e0\u00a5\u02c6\u00e0\u00a4\u201a\u00e0\u00a4\u00a8\u00e0\u00a5\u2021 \u00e0\u00a4\u00aa\u00e0\u00a4\u00b9\u00e0\u00a4\u00b2\u00e0\u00a5\u2021 \u00e0\u00a4\u00b9\u00e0\u00a5\u20ac **" ++ pc ++ "** \u00e0\u00a4\u00aa\u00e0\u00a4\u00b0 \u00e0\u00a4\u2022\u00e0\u00a5\u2021\u00e0\u00a4\u201a\u00e0\u00a4\u00a6\u00e0\u00a5\u00e0\u00a4\u00b0\u00e0\u00a4\u00bf\u00e0\u00a4\u00a4 \u00e0\u00a4\u2020\u00e0\u00a4\u00aa\u00e0\u00a4\u2022\u00e0\u00a5\u2021 \u00e0\u00a4\u00b2\u00e0\u00a4\u00bf\u00e0\u00a4 \u00e0\u00a4\u00e0\u00a4\u2022 \u00e0\u00a4\u2022\u00e0\u00a4\u00b0\u00e0\u00a4\u00bf\u00e0\u00a4\u00af\u00e0\u00a4\u00b0 \u00e0\u00a4\u00af\u00e0\u00a5\u2039\u00e0\u00a4\u0153\u00e0\u00a4\u00a8\u00e0\u00a4\u00be \u00e0\u00a4\u00ac\u00e0\u00a4\u00a8\u00e0\u00a4\u00be\u00e0\u00a4\u02c6 \u00e0\u00a4\u00b9\u00e0\u00a5\u02c6\u00e0\u00a5\u00a4 \u00e0\u00a4\u2022\u00e0\u00a5\u00e0\u00a4\u00af\u00e0\u00a4\u00be \u00e0\u00a4\u2020\u00e0\u00a4\u00aa \u00e0\u00a4\u0161\u00e0\u00a4\u00be\u00e0\u00a4\u00b9\u00e0\u00a5\u2021\u00e0\u00a4\u201a\u00e0\u00a4\u2014\u00e0\u00a5\u2021 \u00e0\u00a4\u2022\u00e0\u00a4\u00bf \u00e0\u00a4\u00ae\u00e0\u00a5\u02c6\u00e0\u00a4\u201a \u00e0\u00a4\u2021\u00e0\u00a4\u00b8\u00e0\u00a5\u2021 \u00e0\u00a4\u00ab\u00e0\u00a4\u00bf\u00e0\u00a4\u00b0 \u00e0\u00a4\u00b8\u00e0\u00a5\u2021 \u00e0\u00a4\u00b8\u00e0\u00a4\u00be\u00e0\u00a4\u00e0\u00a4\u00be \u00e0\u00a4\u2022\u00e0\u00a4\u00b0\u00e0\u00a5\u201a\u00e0\u00a4\u201a \u00e0\u00a4\u00af\u00e0\u00a4\u00be \u00e0\u00a4\u00a8\u00e0\u00a4\u02c6 \u00e0\u00a4\u0153\u00e0\u00a4\u00be\u00e0\u00a4\u00a8\u00e0\u00a4\u2022\u00e0\u00a4\u00be\u00e0\u00a4\u00b0\u00e0\u00a5\u20ac \u00e0\u00a4\u2022\u00e0\u00a5\u2021 \u00e0\u00a4\u00b8\u00e0\u00a4\u00be\u00e0\u00a4\u00a5 \u00e0\u00a4\u2021\u00e0\u00a4\u00b8\u00e0\u00a5\u2021 \u00e0\u00a4\u2026\u00e0\u00a4\u00aa\u00e0\u00a4\u00a1\u00e0\u00a5\u2021\u00e0\u00a4\u0178 \u00e0\u00a4\u2022\u00e0\u00a4\u00b0\u00e0\u00a5\u201a\u00e0\u00a4\u201a?") ("Maine pehle hi **" ++ pc ++ "** par focus karte hue aapke liye ek career plan banayi hai. Kya aap chahte ho ki main ise phir se share karoon ya nayi information ke saath ise update karoon?")

def need_more_info_message (lang : String) : String :=
  pick_lang lang "I\x27d love to create a comprehensive career plan for you! First, I need to know a bit more about you. Could you tell me about your academic interests, hobbies, and any career fields you\x27re curious about?" "\u00e0\u00a4\u00ae\u00e0\u00a5\u02c6\u00e0\u00a4\u201a \u00e0\u00a4\u2020\u00e0\u00a4\u00aa\u00e0\u00a4\u2022\u00e0\u00a5\u2021 \u00e0\u00a4\u00b2\u00e0\u00a4\u00bf\u00e0\u00a4 \u00e0\u00a4\u00e0\u00a4\u2022 \u00e0\u00a4\u00b5\u00e0\u00a5\u00e0\u00a4\u00af\u00e0\u00a4\u00be\u00e0\u00a4\u00aa\u00e0\u00a4\u2022 \u00e0\u00a4\u2022\u00e0\u00a4\u00b0\u00e0\u00a4\u00bf\u00e0\u00a4\u00af\u00e0\u00a4\u00b0 \u00e0\u00a4\u00af\u00e0\u00a5\u2039\u00e0\u00a4\u0153\u00e0\u00a4\u00a8\u00e0\u00a4\u00be \u00e0\u00a4\u00ac\u00e0\u00a4\u00a8\u00e0\u00a4\u00be\u00e0\u00a4\u00a8\u00e0\u00a4\u00be \u00e0\u00a4\u0161\u00e0\u00a4\u00be\u00e0\u00a4\u00b9\u00e0\u00a5\u201a\u00e0\u00a4\u201a\u00e0\u00a4\u2014\u00e0\u00a4\u00be! \u00e0\u00a4\u00aa\u00e0\u00a4\u00b9\u00e0\u00a4\u00b2\u00e0\u00a5\u2021, \u00e0\u00a4\u00ae\u00e0\u00a5\u00e0\u00a4\u00e0\u00a5\u2021 \u00e0\u00a4\u2020\u00e0\u00a4\u00aa\u00e0\u00a4\u2022\u00e0\u00a5\u2021 \u00e0\u00a4\u00ac\u00e0\u00a4\u00be\u00e0\u00a4\u00b0\u00e0\u00a5\u2021 \u00e0\u00a4\u00ae\u00e0\u00a5\u2021\u00e0\u00a4\u201a \u00e0\u00a4\u00a5\u00e0\u00a5\u2039\u00e0\u00a4\u00a1\u00e0\u00a4\u00bc\u00e0\u00a4\u00be \u00e0\u00a4\u201d\u00e0\u00a4\u00b0 \u00e0\u00a4\u0153\u00e0\u00a4\u00be\u00e0\u00a4\u00a8\u00e0\u00a4\u00a8\u00e0\u00a4\u00be \u00e0\u00a4\u00b9\u00e0\u00a5\u2039\u00e0\u00a4\u2014\u00e0\u00a4\u00be\u00e0\u00a5\u00a4 \u00e0\u00a4\u2022\u00e0\u00a5\u00e0\u00a4\u00af\u00e0\u00a4\u00be \u00e0\u00a4\u2020\u00e0\u00a4\u00aa \u00e0\u00a4\u00ae\u00e0\u00a5\u00e0\u00a4\u00e0\u00a5\u2021 \u00e0\u00a4\u2026\u00e0\u00a4\u00aa\u00e0\u00a4\u00a8\u00e0\u00a5\u20ac \u00e0\u00a4\u00b6\u00e0\u00a5\u02c6\u00e0\u00a4\u2022\u00e0\u00a5\u00e0\u00a4\u00b7\u00e0\u00a4\u00bf\u00e0\u00a4\u2022 \u00e0\u00a4\u00b0\u00e0\u00a5\u00e0\u00a4\u0161\u00e0\u00a4\u00bf\u00e0\u00a4\u00af\u00e0\u00a5\u2039\u00e0\u00a4\u201a, \u00e0\u00a4\u00b6\u00e0\u00a5\u0152\u00e0\u00a4\u2022 \u00e0\u00a4\u201d\u00e0\u00a4\u00b0 \u00e0\u00a4\u2022\u00e0\u00a4\u00bf\u00e0\u00a4\u00b8\u00e0\u00a5\u20ac \u00e0\u00a4\u00ad\u00e0\u00a5\u20ac \u00e0\u00a4\u2022\u00e0\u00a4\u00b0\u00e0\u00a4\u00bf\u00e0\u00a4\u00af\u00e0\u00a4\u00b0 \u00e0\u00a4\u2022\u00e0\u00a5\u00e0\u00a4\u00b7\u00e0\u00a5\u2021\u00e0\u00a4\u00a4\u00e0\u00a5\u00e0\u00a4\u00b0 \u00e0\u00a4\u2022\u00e0\u00a5\u2021 \u00e0\u00a4\u00ac\u00e0\u00a4\u00be\u00e0\u00a4\u00b0\u00e0\u00a5\u2021 \u00e0\u00a4\u00ae\u00e0\u00a5\u2021\u00e0\u00a4\u201a \u00e0\u00a4\u00ac\u00e0\u00a4\u00a4\u00e0\u00a4\u00be \u00e0\u00a4\u00b8\u00e0\u00a4\u2022\u00e0\u00a4\u00a4\u00e0\u00a5\u2021 \u00e0\u00a4\u00b9\u00e0\u00a5\u02c6\u00e0\u00a4\u201a \u00e0\u00a4\u0153\u00e0\u00a4\u00bf\u00e0\u00a4\u00b8\u00e0\u00a4\u2022\u00e0\u00a5\u2021 \u00e0\u00a4\u00ac\u00e0\u00a4\u00be\u00e0\u00a4\u00b0\u00e0\u00a5\u2021 \u00e0\u00a4\u00ae\u00e0\u00a5\u2021\u00e0\u00a4\u201a \u00e0\u00a4\u2020\u00e0\u00a4\u00aa \u00e0\u00a4\u2030\u00e0\u00a4\u00a4\u00e0\u00a5\u00e0\u00a4\u00b8\u00e0\u00a5\u00e0\u00a4\u2022 \u00e0\u00a4\u00b9\u00e0\u00a5\u02c6\u00e0\u00a4\u201a?" "Main aapke liye ek comprehensive career plan banana chahta hoon! Pehle, mujhe aapke baare mein thoda aur jaanna hoga. Kya aap mujhe apni academic interests, hobbies, aur kisi bhi career field ke baare mein bata sakte ho jiske baare mein aap curious ho?"

def empty_response_message (lang : String) : String :=
  pick_lang lang "I didn\x27t catch that. Could you say something?" "\u00e0\u00a4\u00ae\u00e0\u00a5\u00e0\u00a4\u00e0\u00a5\u2021 \u00e0\u00a4\u00b5\u00e0\u00a4\u00b9 \u00e0\u00a4\u00b8\u00e0\u00a4\u00ae\u00e0\u00a4 \u00e0\u00a4\u00a8\u00e0\u00a4\u00b9\u00e0\u00a5\u20ac\u00e0\u00a4\u201a \u00e0\u00a4\u2020\u00e0\u00a4\u00af\u00e0\u00a4\u00be\u00e0\u00a5\u00a4 \u00e0\u00a4\u2022\u00e0\u00a5\u00e0\u00a4\u00af\u00e0\u00a4\u00be \u00e0\u00a4\u2020\u00e0\u00a4\u00aa \u00e0\u00a4\u2022\u00e0\u00a5\u00e0\u00a4\u203a \u00e0\u00a4\u2022\u00e0\u00a4\u00b9 \u00e0\u00a4\u00b8\u00e0\u00a4\u2022\u00e0\u00a4\u00a4\u00e0\u00a5\u2021 \u00e0\u00a4\u00b9\u00e0\u00a5\u02c6\u00e0\u00a4\u201a?" "Mujhe samajh nahi aaya. Kuch bolo na?"

def gratitude_response (lang : String) : String :=
  pick_lang lang "You\x27re welcome!" "\u00e0\u00a4\u2020\u00e0\u00a4\u00aa\u00e0\u00a4\u2022\u00e0\u00a4\u00be \u00e0\u00a4\u00b8\u00e0\u00a5\u00e0\u00a4\u00b5\u00e0\u00a4\u00be\u00e0\u00a4\u2014\u00e0\u00a4\u00a4 \u00e0\u00a4\u00b9\u00e0\u00a5\u02c6!" "Bilkul welcome!"

def continue_prompt (lang : String) : String :=
  pick_lang lang "What else would you like to explore?" "\u00e0\u00a4\u2020\u00e0\u00a4\u00aa \u00e0\u00a4\u201d\u00e0\u00a4\u00b0 \u00e0\u00a4\u2022\u00e0\u00a5\u00e0\u00a4\u00af\u00e0\u00a4\u00be \u00e0\u00a4\u2013\u00e0\u00a5\u2039\u00e0\u00a4\u0153\u00e0\u00a4\u00a8\u00e0\u00a4\u00be \u00e0\u00a4\u0161\u00e0\u00a4\u00be\u00e0\u00a4\u00b9\u00e0\u00a5\u2021\u00e0\u00a4\u201a\u00e0\u00a4\u2014\u00e0\u00a5\u2021?" "Aur kya explore karna hai?"

def parental_pressure_response (lang : String) : String :=
  pick_lang lang "I understand - family expectations are important. Let\x27s find careers that align with both your interests and provide the stability your parents value. Tell me what YOU enjoy, and I\x27ll show you secure career options in that field." "\u00e0\u00a4\u00ae\u00e0\u00a5\u02c6\u00e0\u00a4\u201a \u00e0\u00a4\u00b8\u00e0\u00a4\u00ae\u00e0\u00a4\u00e0\u00a4\u00a4\u00e0\u00a4\u00be \u00e0\u00a4\u00b9\u00e0\u00a5\u201a\u00e0\u00a4\u201a - \u00e0\u00a4\u00aa\u00e0\u00a4\u00b0\u00e0\u00a4\u00bf\u00e0\u00a4\u00b5\u00e0\u00a4\u00be\u00e0\u00a4\u00b0 \u00e0\u00a4\u2022\u00e0\u00a5\u20ac \u00e0\u00a4\u2026\u00e0\u00a4\u00aa\u00e0\u00a5\u2021\u00e0\u00a4\u2022\u00e0\u00a5\u00e0\u00a4\u00b7\u00e0\u00a4\u00be\u00e0\u00a4\u00e0\u00a4\u201a \u00e0\u00a4\u00ae\u00e0\u00a4\u00b9\u00e0\u00a4\u00a4\u00e0\u00a5\u00e0\u00a4\u00b5\u00e0\u00a4\u00aa\u00e0\u00a5\u201a\u00e0\u00a4\u00b0\u00e0\u00a5\u00e0\u00a4\u00a3 \u00e0\u00a4\u00b9\u00e0\u00a5\u02c6\u00e0\u00a4\u201a\u00e0\u00a5\u00a4 \u00e0\u00a4\u0161\u00e0\u00a4\u00b2\u00e0\u00a4\u00bf\u00e0\u00a4 \u00e0\u00a4\u00e0\u00a4\u00b8\u00e0\u00a5\u2021 \u00e0\u00a4\u2022\u00e0\u00a4\u00b0\u00e0\u00a4\u00bf\u00e0\u00a4\u00af\u00e0\u00a4\u00b0 \u00e0\u00a4\u2013\u00e0\u00a5\u2039\u00e0\u00a4\u0153\u00e0\u00a5\u2021\u00e0\u00a4\u201a \u00e0\u00a4\u0153\u00e0\u00a5\u2039 \u00e0\u00a4\u2020\u00e0\u00a4\u00aa\u00e0\u00a4\u2022\u00e0\u00a5\u20ac \u00e0\u00a4\u00b0\u00e0\u00a5\u00e0\u00a4\u0161\u00e0\u00a4\u00bf\u00e0\u00a4\u00af\u00e0\u00a5\u2039\u00e0\u00a4\u201a \u00e0\u00a4\u201d\u00e0\u00a4\u00b0 \u00e0\u00a4\u2020\u00e0\u00a4\u00aa\u00e0\u00a4\u2022\u00e0\u00a5\u2021 \u00e0\u00a4\u00ae\u00e0\u00a4\u00be\u00e0\u00a4\u00a4\u00e0\u00a4\u00be-\u00e0\u00a4\u00aa\u00e0\u00a4\u00bf\u00e0\u00a4\u00a4\u00e0\u00a4\u00be \u00e0\u00a4\u2022\u00e0\u00a5\u20ac \u00e0\u00a4\u00b8\u00e0\u00a5\u00e0\u00a4\u00a5\u00e0\u00a4\u00bf\u00e0\u00a4\u00b0\u00e0\u00a4\u00a4\u00e0\u00a4\u00be \u00e0\u00a4\u00a6\u00e0\u00a5\u2039\u00e0\u00a4\u00a8\u00e0\u00a5\u2039\u00e0\u00a4\u201a \u00e0\u00a4\u2022\u00e0\u00a5\u2021 \u00e0\u00a4\u2026\u00e0\u00a4\u00a8\u00e0\u00a5\u00e0\u00a4\u00b0\u00e0\u00a5\u201a\u00e0\u00a4\u00aa \u00e0\u00a4\u00b9\u00e0\u00a5\u2039\u00e0\u00a4\u201a\u00e0\u00a5\u00a4 \u00e0\u00a4\u00ae\u00e0\u00a5\u00e0\u00a4\u00e0\u00a5\u2021 \u00e0\u00a4\u00ac\u00e0\u00a4\u00a4\u00e0\u00a4\u00be\u00e0\u00a4\u00e0\u00a4\u201a \u00e0\u00a4\u2022\u00e0\u00a4\u00bf \u00e0\u00a4\u2020\u00e0\u00a4\u00aa \u00e0\u00a4\u2022\u00e0\u00a5\u00e0\u00a4\u00af\u00e0\u00a4\u00be \u00e0\u00a4\u00aa\u00e0\u00a4\u00b8\u00e0\u00a4\u201a\u00e0\u00a4\u00a6 \u00e0\u00a4\u2022\u00e0\u00a4\u00b0\u00e0\u00a4\u00a4\u00e0\u00a5\u2021 \u00e0\u00a4\u00b9\u00e0\u00a5\u02c6\u00e0\u00a4\u201a, \u00e0\u00a4\u201d\u00e0\u00a4\u00b0 \u00e0\u00a4\u00ae\u00e0\u00a5\u02c6\u00e0\u00a4\u201a \u00e0\u00a4\u2020\u00e0\u00a4\u00aa\u00e0\u00a4\u2022\u00e0\u00a5\u2039 \u00e0\u00a4\u2030\u00e0\u00a4\u00b8 \u00e0\u00a4\u2022\u00e0\u00a5\u00e0\u00a4\u00b7\u00e0\u00a5\u2021\u00e0\u00a4\u00a4\u00e0\u00a5\u00e0\u00a4\u00b0 \u00e0\u00a4\u00ae\u00e0\u00a5\u2021\u00e0\u00a4\u201a \u00e0\u00a4\u00b8\u00e0\u00a5\u00e0\u00a4\u00b0\u00e0\u00a4\u2022\u00e0\u00a5\u00e0\u00a4\u00b7\u00e0\u00a4\u00bf\u00e0\u00a4\u00a4 \u00e0\u00a4\u2022\u00e0\u00a4\u00b0\u00e0\u00a4\u00bf\u00e0\u00a4\u00af\u00e0\u00a4\u00b0 \u00e0\u00a4\u00b5\u00e0\u00a4\u00bf\u00e0\u00a4\u2022\u00e0\u00a4\u00b2\u00e0\u00a5\u00e0\u00a4\u00aa \u00e0\u00a4\u00a6\u00e0\u00a4\u00bf\u00e0\u00a4\u2013\u00e0\u00a4\u00be\u00e0\u00a4\u0160\u00e0\u00a4\u201a\u00e0\u00a4\u2014\u00e0\u00a4\u00be\u00e0\u00a5\u00a4" "Main samajhta hoon - family expectations important hote hain. Chalo aise careers dhoondhein jo aapki interests aur aapke parents ki stability dono ke saath align karein. Mujhe batao ki aap kya enjoy karte ho, aur main aapko us field mein secure career options dikhaaunga."

def error_message_text (lang : String) : String :=
  pick_lang lang "I apologize, I encountered an error. Could you repeat that?" "\u00e0\u00a4\u00ae\u00e0\u00a5\u02c6\u00e0\u00a4\u201a \u00e0\u00a4\u00ae\u00e0\u00a4\u00be\u00e0\u00a4\u00ab\u00e0\u00a5\u20ac \u00e0\u00a4\u0161\u00e0\u00a4\u00be\u00e0\u00a4\u00b9\u00e0\u00a4\u00a4\u00e0\u00a4\u00be \u00e0\u00a4\u00b9\u00e0\u00a5\u201a\u00e0\u00a4, \u00e0\u00a4\u00ae\u00e0\u00a5\u00e0\u00a4\u00e0\u00a5\u2021 \u00e0\u00a4\u00e0\u00a4\u2022 \u00e0\u00a4\u00a4\u00e0\u00a5\u00e0\u00a4\u00b0\u00e0\u00a5\u00e0\u00a4\u0178\u00e0\u00a4\u00bf \u00e0\u00a4\u2022\u00e0\u00a4\u00be \u00e0\u00a4\u00b8\u00e0\u00a4\u00be\u00e0\u00a4\u00ae\u00e0\u00a4\u00a8\u00e0\u00a4\u00be \u00e0\u00a4\u2022\u00e0\u00a4\u00b0\u00e0\u00a4\u00a8\u00e0\u00a4\u00be \u00e0\u00a4\u00aa\u00e0\u00a4\u00a1\u00e0\u00a4\u00bc\u00e0\u00a4\u00be\u00e0\u00a5\u00a4 \u00e0\u00a4\u2022\u00e0\u00a5\u00e0\u00a4\u00af\u00e0\u00a4\u00be \u00e0\u00a4\u2020\u00e0\u00a4\u00aa \u00e0\u00a4\u00a6\u00e0\u00a5\u2039\u00e0\u00a4\u00ac\u00e0\u00a4\u00be\u00e0\u00a4\u00b0\u00e0\u00a4\u00be \u00e0\u00a4\u2022\u00e0\u00a4\u00b9 \u00e0\u00a4\u00b8\u00e0\u00a4\u2022\u00e0\u00a4\u00a4\u00e0\u00a5\u2021 \u00e0\u00a4\u00b9\u00e0\u00a5\u02c6\u00e0\u00a4\u201a?" "Sorry, mujhe error aaya. Thoda aur clear bolo na?"

-- ==================== regex search helpers ====================

/-- Match a literal at the head of a character list; returns the remainder. -/
def litAt : List Char → List Char → Option (List Char)
  | [], rest => some rest
  | _, [] => none
  | l :: ls, c :: cs => if l = c then litAt ls cs else none

/-- Split a maximal leading digit run. -/
def digitRunSplit : List Char → List Char × List Char
  | [] => ([], [])
  | c :: rest =>
      if c.isDigit then
        let (d, r) := digitRunSplit rest
        (c :: d, r)
      else ([], c :: rest)

/-- Leftmost re.search of a literal followed by a captured nonempty digit
run (the digit alternation of the grade patterns reduces to a greedy run). -/
def searchLitDigits (lit : List Char) : List Char → Option String
  | [] => none
  | c :: cs =>
      match litAt lit (c :: cs) with
      | some rest =>
          match digitRunSplit rest with
          | ([], _) => searchLitDigits lit cs
          | (d, _) => some (String.mk d)
      | none => searchLitDigits lit cs

/-- Whether rest begins with one of th/st/nd/rd followed by the literal. -/
def ordSuffixAt (word rest : List Char) : Bool :=
  [['t','h'], ['s','t'], ['n','d'], ['r','d']].any (fun o =>
    match litAt o rest with
    | some r2 => (litAt word r2).isSome
    | none => false)

/-- Leftmost re.search of a captured digit run, an ordinal suffix, and a
trailing literal word. -/
def searchOrdinal (word : List Char) : List Char → Option String
  | [] => none
  | c :: cs =>
      match digitRunSplit (c :: cs) with
      | (d :: ds, rest) =>
          if ordSuffixAt word rest then some (String.mk (d :: ds))
          else searchOrdinal word cs
      | ([], _) => searchOrdinal word cs

/-- Leftmost re.search of a literal followed by an alternation of literal
city names (no alternative is a proper head of another). -/
def searchLitAlts (lit : List Char) (alts : List String) : List Char → Option String
  | [] => none
  | c :: cs =>
      match litAt lit (c :: cs) with
      | some rest =>
          match alts.find? (fun a => (litAt a.toList rest).isSome) with
          | some a => some a
          | none => searchLitAlts lit alts cs
      | none => searchLitAlts lit alts cs

/-- Python regex word characters, restricted to ASCII; the location texts
matched by these patterns are ASCII. -/
def pyIsWordChar (c : Char) : Bool := c.isAlphanum || c = '_'

def wordRunSplit : List Char → List Char × List Char
  | [] => ([], [])
  | c :: rest =>
      if pyIsWordChar c then
        let (d, r) := wordRunSplit rest
        (c :: d, r)
      else ([], c :: rest)

/-- Leftmost re.search of a literal followed by a captured word run. -/
def searchLitWordRun (lit : List Char) : List Char → Option String
  | [] => none
  | c :: cs =>
      match litAt lit (c :: cs) with
      | some rest =>
          match wordRunSplit rest with
          | ([], _) => searchLitWordRun lit cs
          | (d, _) => some (String.mk d)
      | none => searchLitWordRun lit cs

-- ==================== profile extraction ====================

/-- Grade extraction patterns of _extract_profile_from_conversation. -/
def gradeFrom (content : List Char) : Option String :=
  (searchLitDigits "grade ".toList content) <|>
  (searchLitDigits "class ".toList content) <|>
  (searchOrdinal " grade".toList content) <|>
  (searchOrdinal " class".toList content)

def locationCities : List String :=
  ["mumbai", "delhi", "bangalore", "chennai", "kolkata", "pune", "hyderabad", "ahmedabad"]

/-- Location extraction patterns of _extract_profile_from_conversation. -/
def locationFrom (content : List Char) : Option String :=
  ((searchLitAlts "from ".toList locationCities content) <|>
   (searchLitAlts "in ".toList locationCities content) <|>
   (searchLitWordRun "living in ".toList content) <|>
   (searchLitWordRun "located in ".toList content)).map pyTitle

/-- Learning-style keyword sniffing of _extract_profile_from_conversation. -/
def learningStyleFrom (content : String) : Option String :=
  if ["video", "watch", "visual", "diagram"].any (fun w => strContainsSub content w) then
    some "visual"
  else if ["hands", "practical", "doing", "practice"].any (fun w => strContainsSub content w) then
    some "kinesthetic"
  else if ["listen", "audio", "podcast", "hear"].any (fun w => strContainsSub content w) then
    some "auditory"
  else none

/-- Processing of one user message by the extraction loop of
_extract_profile_from_conversation; the content is lowercased first. -/
def extract_step (p : JDict) (content : String) : JDict :=
  let cl := content.toLower
  let p :=
    if jTruthy (jGetD p "grade" JVal.null) then p
    else match gradeFrom cl.toList with
      | some g => dictSet p "grade" (JVal.str g)
      | none => p
  let p :=
    if jTruthy (jGetD p "location" JVal.null) then p
    else match locationFrom cl.toList with
      | some loc => dictSet p "location" (JVal.str loc)
      | none => p
  let p :=
    if jTruthy (jGetD p "learning_style" JVal.null) then p
    else match learningStyleFrom cl with
      | some st => dictSet p "learning_style" (JVal.str st)
      | none => p
  p

/-- Model of _extract_profile_from_conversation (chatbot.py lines 406-461). -/
def _extract_profile_from_conversation (s : CounselorState) : JDict :=
  let p0 : JDict :=
    [("grade", jGetD s.student_profile "grade" JVal.null),
     ("age_range", JVal.null),
     ("location", JVal.null),
     ("interests", jGetD s.student_profile "interests" (JVal.arr [])),
     ("strengths", jGetD s.student_profile "strengths" (JVal.arr [])),
     ("constraints", jGetD s.student_profile "constraints" (JVal.arr [])),
     ("selected_career", jGetD s.student_profile "selected_career" JVal.null),
     ("learning_style", JVal.null)]
  (s.conversation.filter (fun m => m.role == "user")).foldl
    (fun p m => extract_step p m.content) p0

-- ==================== career plan validation and fallback ====================

def requiredSections : List String :=
  ["student_profile", "career_recommendation", "education_path",
   "skill_development_roadmap", "application_timeline",
   "financial_planning", "success_metrics"]

/-- Model of _validate_career_plan (chatbot.py lines 463-483). -/
def _validate_career_plan (sid now : String) (convLen : Nat) (plan : JDict) : JDict :=
  let plan := requiredSections.foldl
    (fun d sec => if jHasKey d sec then d else d ++ [(sec, JVal.obj [])])
    plan
  dictSet plan "metadata"
    (JVal.obj [("session_id", JVal.str sid), ("generated_at", JVal.str now),
               ("conversation_messages", JVal.num (convLen : ℚ))])

/-- Model of _generate_fallback_plan (chatbot.py lines 485-575). -/
def _generate_fallback_plan (s : CounselorState) (now nowMonth : String) : JDict :=
  let profile := _extract_profile_from_conversation s
  [("student_profile", JVal.obj
      [("grade", jGetD profile "grade" (JVal.str "10th")),
       ("age_range", JVal.str "15-17"),
       ("location", jGetD profile "location" (JVal.str "Urban India")),
       ("interests", jGetD profile "interests"
          (JVal.arr [JVal.str "Technology", JVal.str "Problem Solving"])),
       ("strengths", jGetD profile "strengths"
          (JVal.arr [JVal.str "Analytical Thinking", JVal.str "Creativity"])),
       ("constraints", jGetD profile "constraints"
          (JVal.arr [JVal.str "Budget constraints"])),
       ("learning_style", jGetD profile "learning_style" (JVal.str "mixed"))]),
   ("career_recommendation", JVal.obj
      [("primary_career", JVal.str "Software Engineering"),
       ("alternative_careers", JVal.arr
          [JVal.str "Data Science", JVal.str "Product Management", JVal.str "UX Design"]),
       ("rationale", JVal.str "Based on your analytical skills and interest in technology"),
       ("alignment_score", JVal.num 8)]),
   ("education_path", JVal.obj
      [("recommended_degree", JVal.str "B.Tech in Computer Science"),
       ("duration_years", JVal.num 4),
       ("entrance_exams", JVal.arr
          [JVal.str "JEE Main", JVal.str "JEE Advanced", JVal.str "State CETs"]),
       ("top_institutions_india", JVal.arr
          [JVal.obj [("name", JVal.str "IIT Bombay"), ("location", JVal.str "Mumbai"),
                     ("program", JVal.str "B.Tech CSE"),
                     ("fees_total_inr", JVal.num 200000),
                     ("placement_avg_inr_lakhs", JVal.num 25)]]),
       ("abroad_options", JVal.arr [])]),
   ("skill_development_roadmap", JVal.obj
      [("current_skills", JVal.arr [JVal.str "Basic Programming", JVal.str "Logical Thinking"]),
       ("priority_1_immediate", JVal.arr
          [JVal.obj [("skill", JVal.str "Python Programming"),
                     ("why", JVal.str "Foundation for data science and AI"),
                     ("resource", JVal.str "Codecademy Python Course"),
                     ("timeline_weeks", JVal.num 8)]]),
       ("priority_2_short_term", JVal.arr []),
       ("priority_3_long_term", JVal.arr []),
       ("projects_to_build", JVal.arr
          [JVal.obj [("project_name", JVal.str "Simple Calculator App"),
                     ("skills_demonstrated", JVal.arr [JVal.str "Python", JVal.str "Problem Solving"]),
                     ("timeline_weeks", JVal.num 2),
                     ("difficulty", JVal.str "beginner")]])]),
   ("application_timeline", JVal.obj
      [("current_date", JVal.str nowMonth),
       ("key_milestones", JVal.arr
          [JVal.obj [("date", JVal.str nowMonth),
                     ("action", JVal.str "Start Python learning course"),
                     ("deadline", JVal.str "Next month")]])]),
   ("financial_planning", JVal.obj
      [("total_education_cost_inr", JVal.num 2000000),
       ("scholarship_opportunities", JVal.arr
          [JVal.obj [("name", JVal.str "KVPY Scholarship"), ("amount_inr", JVal.num 60000),
                     ("eligibility", JVal.str "Class 12 Science students"),
                     ("deadline", JVal.str "August")]]),
       ("education_loan_options", JVal.arr [])]),
   ("success_metrics", JVal.obj
      [("career_match_confidence", JVal.num 7),
       ("information_completeness", JVal.num 70),
       ("readiness_for_application", JVal.num 40),
       ("missing_research", JVal.arr
          [JVal.str "Specific college preferences", JVal.str "Financial planning details"])]),
   ("metadata", JVal.obj
      [("session_id", JVal.str s.session_id),
       ("generated_at", JVal.str now),
       ("conversation_messages", JVal.num (s.conversation.length : ℚ)),
       ("note", JVal.str "Fallback plan generated due to AI limitations")])]

/-- Model of _get_plan_generated_message (chatbot.py lines 586-595): raises
unless the career_recommendation entry of the plan is a dict. -/
def plan_generated_message (plan : JDict) (lang : String) : Except Unit String := do
  let recommendation := jGetD plan "career_recommendation" (JVal.obj [])
  let pc ← jGetAttr recommendation "primary_career" (JVal.str "a technology career")
  Except.ok (plan_generated_message_text (jDisplay pc) lang)

/-- Model of _get_existing_plan_message (chatbot.py lines 712-721). -/
def existing_plan_message (s : CounselorState) : Except Unit String :=
  match s.career_plan with
  | none => Except.error ()
  | some plan => do
      let recommendation := jGetD plan "career_recommendation" (JVal.obj [])
      let pc ← jGetAttr recommendation "primary_career" (JVal.str "your chosen career")
      Except.ok (existing_plan_message_text (jDisplay pc) s.current_language)

-- ==================== intent classification ====================

/-- Leftmost-greedy DOTALL search of a brace block: from the first opening
brace to the last closing brace after it. -/
def extractBraces (t : String) : Option String :=
  let l := t.toList.dropWhile (fun c => c ≠ Char.ofNat 123)
  let r := (l.reverse.dropWhile (fun c => c ≠ Char.ofNat 125)).reverse
  if r.isEmpty then none else some (String.mk r)

/-- Model of _classify_intent (chatbot.py lines 174-208).  Returns the
intent dict and the number of LLM calls made (one).  All failures are
handled inside the function, mirroring its try/except. -/
def _classify_intent (s : CounselorState) (env : Env) : JDict × Nat :=
  match env.classifyResult with
  | .err =>
      ([("intent", JVal.str "general_question"), ("confidence", JVal.num (1/2 : ℚ)),
        ("language", JVal.str s.current_language)], 1)
  | .ok text =>
      let result_text := pyStrip text
      match extractBraces result_text with
      | some b =>
          match env.jsonLoads b with
          | some d => (d, 1)
          | none =>
              ([("intent", JVal.str "general_question"), ("confidence", JVal.num (1/2 : ℚ)),
                ("language", JVal.str s.current_language)], 1)
      | none =>
          ([("intent", JVal.str "general_question"), ("confidence", JVal.num (1/2 : ℚ)),
            ("language", JVal.str s.current_language),
            ("detected_interests", JVal.arr []), ("detected_constraints", JVal.arr [])], 1)

-- ==================== reply generators ====================

/-- Model of _handle_first_message (chatbot.py lines 212-231); the user
input only feeds the prompt text. -/
def run_first_message (env : Env) (lang : String) : String :=
  match env.firstMessageResult with
  | .ok t => pyStrip t
  | .err => first_message_fallback lang

/-- Cleanup applied to the generated discovery question: drop double quotes
and asterisks, then strip. -/
def discovery_clean (q : String) : String :=
  pyStrip (String.mk (q.toList.filter (fun c => !(c = '"' || c = '*'))))

/-- Model of _get_fallback_discovery_question (chatbot.py lines 256-286). -/
def fallback_discovery_question (s : CounselorState) : String :=
  let questions := fallback_discovery_questions s.current_language
  let idx := min (user_count s) (questions.length - 1)
  questions.getD idx ""

/-- Model of _generate_discovery_question (chatbot.py lines 235-254). -/
def run_discovery_question (s : CounselorState) (env : Env) : String :=
  match env.discoveryResult with
  | .ok t =>
      let q := discovery_clean (pyStrip t)
      if q = "" ∨ 35 < wordCountOf q then fallback_discovery_question s
      else q
  | .err => fallback_discovery_question s

/-- Prompt interpolation of _generate_career_matches (lines 295-306): the
three profile joins run before the try block and may raise. -/
def career_matches_prompt_joins (s : CounselorState) : Except Unit Unit := do
  let _ ← pyJoinComma (jGetD s.student_profile "interests" (JVal.arr [JVal.str "exploring"]))
  let _ ← pyJoinComma (jGetD s.student_profile "strengths" (JVal.arr [JVal.str "to be discovered"]))
  let _ ← pyJoinComma (jGetD s.student_profile "constraints" (JVal.arr [JVal.str "none mentioned"]))
  Except.ok ()

/-- Model of _generate_career_matches (chatbot.py lines 290-322). -/
def run_career_matches (s : CounselorState) (env : Env) : Except Unit String := do
  let _ ← career_matches_prompt_joins s
  match env.matchesResult with
  | .ok t => Except.ok (pyStrip t)
  | .err => Except.ok (career_match_fallback s.current_language)

/-- Model of _handle_uncertainty (chatbot.py lines 608-626). -/
def run_uncertainty (env : Env) (lang : String) : String :=
  match env.uncertaintyResult with
  | .ok t => pyStrip t
  | .err => uncertainty_fallback lang

/-- Model of _handle_casual_chat (chatbot.py lines 664-682). -/
def run_casual_chat (env : Env) (lang : String) : String :=
  match env.casualResult with
  | .ok t => pyStrip t
  | .err => casual_chat_fallback lang

/-- Model of _check_phase_progress (chatbot.py lines 630-660). -/
def run_phase_progress (s : CounselorState) (env : Env) : JDict × Nat :=
  if user_count s < 2 then
    ([("phase", JVal.str "discovery"), ("ready_for_matching", JVal.bool false)], 0)
  else
    match env.progressResult with
    | .ok t =>
        match extractBraces (pyStrip t) with
        | some b =>
            match env.jsonLoads b with
            | some d => (d, 1)
            | none =>
                (if 3 ≤ user_count s then
                   [("phase", JVal.str "exploration"), ("ready_for_matching", JVal.bool true)]
                 else
                   [("phase", JVal.str "discovery"), ("ready_for_matching", JVal.bool false)], 1)
        | none =>
            ([("phase", JVal.str "discovery"), ("ready_for_matching", JVal.bool false)], 1)
    | .err =>
        (if 3 ≤ user_count s then
           [("phase", JVal.str "exploration"), ("ready_for_matching", JVal.bool true)]
         else
           [("phase", JVal.str "discovery"), ("ready_for_matching", JVal.bool false)], 1)

-- ==================== career plan generation ====================

/-- Prompt interpolation of generate_career_plan (lines 347-355): the three
joins over the extracted profile run before the LLM call and may raise. -/
def plan_prompt_joins (profile : JDict) : Except Unit Unit := do
  let _ ← pyJoinComma (jGetD profile "interests" (JVal.arr [JVal.str "exploring"]))
  let _ ← pyJoinComma (jGetD profile "strengths" (JVal.arr [JVal.str "to be discovered"]))
  let _ ← pyJoinComma (jGetD profile "constraints" (JVal.arr [JVal.str "none"]))
  Except.ok ()

/-- Body of generate_career_plan inside its try block.  Errors carry the
session state and LLM-call count at the moment the exception was raised. -/
def generate_career_plan_body (s : CounselorState) (env : Env) :
    Except (CounselorState × Nat) ((Option JDict × String) × CounselorState × Nat) :=
  if user_count s < 5 then
    Except.ok ((none, insufficient_info_message s.current_language), s, 0)
  else
    let profile := _extract_profile_from_conversation s
    match plan_prompt_joins profile with
    | .error _ => Except.error (s, 0)
    | .ok _ =>
      match env.planResult with
      | .err => Except.error (s, 1)
      | .ok t =>
        let result_text := pyStrip t
        match extractBraces result_text with
        | some b =>
            match env.jsonLoads b with
            | some d =>
                let plan := _validate_career_plan s.session_id env.now s.conversation.length d
                let updRes :=
                  if jHasKey plan "student_profile" then
                    dictUpdateJ s.student_profile (jGetD plan "student_profile" JVal.null)
                  else Except.ok s.student_profile
                match updRes with
                | .error prof1 => Except.error ({ s with student_profile := prof1 }, 1)
                | .ok prof =>
                    let s1 := { s with
                                student_profile := prof
                                career_plan := some plan
                                plan_generated := true
                                current_phase := "planning" }
                    match plan_generated_message plan s1.current_language with
                    | .error _ => Except.error (s1, 1)
                    | .ok msg => Except.ok ((some plan, msg), s1, 1)
            | none =>
                let fp := _generate_fallback_plan s env.now env.nowMonth
                let s1 := { s with career_plan := some fp, plan_generated := true }
                match plan_generated_message fp s1.current_language with
                | .error _ => Except.error (s1, 1)
                | .ok msg => Except.ok ((some fp, msg), s1, 1)
        | none =>
            let fp := _generate_fallback_plan s env.now env.nowMonth
            let s1 := { s with career_plan := some fp, plan_generated := true }
            match plan_generated_message fp s1.current_language with
            | .error _ => Except.error (s1, 1)
            | .ok msg => Except.ok ((some fp, msg), s1, 1)

/-- Model of generate_career_plan (chatbot.py lines 326-404): the broad
except turns any raised exception into (None, plan-error message); state
mutations made before the raise persist. -/
def generate_career_plan (s : CounselorState) (env : Env) :
    (Option JDict × String) × CounselorState × Nat :=
  match generate_career_plan_body s env with
  | .ok r => r
  | .error (s1, n) => ((none, plan_error_message s1.current_language), s1, n)

-- ==================== plan request handler ====================

def plan_truthy : Option JDict → Bool
  | some d => !d.isEmpty
  | none => false

/-- The extra assistant entry appended by _handle_plan_request when a plan
was produced. -/
def plan_assistant_msg (content ts : String) : Msg :=
  { role := "assistant", content := content, timestamp := ts, plan_generated := some true }

/-- Model of _handle_plan_request (chatbot.py lines 686-710); it runs inside
process_response, so exceptions escape to the outer handler. -/
def _handle_plan_request (s : CounselorState) (env : Env) :
    Except (CounselorState × Nat) (String × CounselorState × Nat) :=
  if s.plan_generated && plan_truthy s.career_plan then
    match existing_plan_message s with
    | .error _ => Except.error (s, 0)
    | .ok m => Except.ok (m, s, 0)
  else if user_count s < 5 then
    Except.ok (need_more_info_message s.current_language, s, 0)
  else
    match generate_career_plan s env with
    | ((plan, msg), s1, n) =>
        if plan_truthy plan then
          Except.ok (msg,
            { s1 with conversation := s1.conversation ++ [plan_assistant_msg msg env.now] }, n)
        else
          Except.ok (msg, s1, n)

-- ==================== main processing ====================

/-- Metadata dict attached to a plan request. -/
def plan_requested_meta : JVal := JVal.obj [("plan_requested", JVal.bool true)]

/-- Intent dispatch of process_response (chatbot.py lines 772-851), on the
state after the user message was appended.  Returns response text, optional
metadata, updated state, and the LLM calls made by the branch. -/
def intent_branch (s : CounselorState) (env : Env) (intent : JVal) :
    Except (CounselorState × Nat) ((String × Option JVal) × CounselorState × Nat) :=
  if jEqStr intent "request_plan" then
    match _handle_plan_request s env with
    | .error e => Except.error e
    | .ok (resp, s1, n) => Except.ok ((resp, some plan_requested_meta), s1, n)
  else if jEqStr intent "greeting" && !s.discovery_started then
    Except.ok ((run_first_message env s.current_language, none),
      { s with discovery_started := true, current_phase := "discovery" }, 1)
  else if jEqStr intent "ready_to_start" then
    if !s.discovery_started then
      Except.ok ((run_first_message env s.current_language, none),
        { s with discovery_started := true, current_phase := "discovery" }, 1)
    else
      Except.ok ((run_discovery_question s env, none), s, 1)
  else if jEqStr intent "career_exploration" then
    let s1 :=
      if !s.discovery_started then
        { s with discovery_started := true, current_phase := "discovery" }
      else s
    let (progress, np) := run_phase_progress s1 env
    if jTruthy (jGetD progress "ready_for_matching" (JVal.bool false)) then
      match run_career_matches s1 env with
      | .error _ => Except.error (s1, np)
      | .ok r => Except.ok ((r, none), { s1 with current_phase := "exploration" }, np + 1)
    else
      Except.ok ((run_discovery_question s1 env, none), s1, np + 1)
  else if jEqStr intent "uncertainty" then
    let resp := run_uncertainty env s.current_language
    let s1 :=
      if !s.discovery_started then
        { s with discovery_started := true, current_phase := "discovery" }
      else s
    Except.ok ((resp, none), s1, 1)
  else if jEqStr intent "parental_pressure" then
    Except.ok ((parental_pressure_response s.current_language, none), s, 0)
  else if jEqStr intent "gratitude" then
    if s.current_phase = "initial" then
      Except.ok ((gratitude_response s.current_language ++ " " ++
                  run_first_message env s.current_language, none),
        { s with discovery_started := true, current_phase := "discovery" }, 1)
    else
      Except.ok ((gratitude_response s.current_language ++ " " ++
                  continue_prompt s.current_language, none), s, 0)
  else if jEqStr intent "clarification_question" then
    Except.ok ((run_casual_chat env s.current_language, none), s, 1)
  else if jEqStr intent "off_topic" || jEqStr intent "general_question" then
    Except.ok ((run_casual_chat env s.current_language, none), s, 1)
  else
    if s.current_phase == "initial" || !s.discovery_started then
      let s1 := { s with discovery_started := true, current_phase := "discovery" }
      Except.ok ((run_discovery_question s1 env, none), s1, 1)
    else
      let (progress, np) := run_phase_progress s env
      if jTruthy (jGetD progress "ready_for_matching" (JVal.bool false)) &&
         s.current_phase == "discovery" then
        match run_career_matches s env with
        | .error _ => Except.error (s, np)
        | .ok r => Except.ok ((r, none), { s with current_phase := "exploration" }, np + 1)
      else
        Except.ok ((run_discovery_question s env, none), s, np + 1)

/-- Profile extension with detected interests and constraints
(process_response lines 757-761); extending a non-list raises. -/
def apply_detected (prof : JDict) (idata : JDict) : Except Unit JDict := do
  let prof ←
    match idata.lookup "detected_interests" with
    | some v =>
        match prof.lookup "interests" with
        | some tgt => (listExtendJ tgt v).map (fun l => dictSet prof "interests" l)
        | none => Except.error ()
    | none => Except.ok prof
  match idata.lookup "detected_constraints" with
  | some v =>
      match prof.lookup "constraints" with
      | some tgt => (listExtendJ tgt v).map (fun l => dictSet prof "constraints" l)
      | none => Except.error ()
  | none => Except.ok prof

/-- Conversation entry appended for the user turn. -/
def user_conv_msg (content lang : String) (intent : JVal) (ts : String) : Msg :=
  { role := "user", content := content, timestamp := ts,
    language := some lang, intent := some intent }

/-- Conversation entry appended for the assistant turn. -/
def assistant_conv_msg (content lang phase ts : String) : Msg :=
  { role := "assistant", content := content, timestamp := ts,
    language := some lang, phase := some phase }

/-- Try-block body of process_response (chatbot.py lines 738-863). -/
def process_response_body (s : CounselorState) (env : Env) (user_input : String) :
    Except (CounselorState × Nat) ((String × Option JVal) × CounselorState × Nat) :=
  if user_input = "" || (pyStrip user_input).length < 1 then
    Except.ok ((empty_response_message s.current_language, none), s, 0)
  else
    let detected := detect_language env.prims user_input
    let s1 := { s with current_language := detected }
    let (idata, _) := _classify_intent s1 env
    let intent := jGetD idata "intent" (JVal.str "general_question")
    match apply_detected s1.student_profile idata with
    | .error _ => Except.error (s1, 1)
    | .ok prof =>
        let s2 := { s1 with
                    student_profile := prof
                    conversation := s1.conversation ++
                      [user_conv_msg user_input detected intent env.now] }
        match intent_branch s2 env intent with
        | .error (se, ne) => Except.error (se, 1 + ne)
        | .ok ((resp, meta), s3, n3) =>
            let s4 := { s3 with conversation := s3.conversation ++
                        [assistant_conv_msg resp detected s3.current_phase env.now] }
            Except.ok ((resp, meta), s4, 1 + n3)

/-- Model of process_response (chatbot.py lines 734-869): the broad except
converts any raised exception into a localized error message plus audio. -/
def process_response (s : CounselorState) (env : Env) (user_input : String) :
    (String × Option String × Option JVal) × CounselorState × Nat :=
  match process_response_body s env user_input with
  | .ok ((resp, meta), s1, n) =>
      ((resp, text_to_speech_run env resp, meta), s1, n)
  | .error (s1, n) =>
      let msg := error_message_text s1.current_language
      ((msg, text_to_speech_run env msg, none), s1, n)

-- ==================== websocket dispatcher (main.py) ====================

/-- One outbound JSON message of the dispatcher. -/
abbrev OutMsg := JDict

/-- Result of one dispatcher branch: messages sent, new session state,
LLM calls made. -/
structure DispatchResult where
  sent : List OutMsg
  state : CounselorState
  llmCalls : Nat

def jOptStr : Option String → JVal
  | some t => JVal.str t
  | none => JVal.null

def jOptJ : Option JVal → JVal
  | some v => v
  | none => JVal.null

/-- JSON encoding of the stats dict for the stats message. -/
def statsToJVal (st : Stats) : JVal :=
  JVal.obj [("session_id", JVal.str st.session_id),
            ("total_messages", JVal.num (st.total_messages : ℚ)),
            ("user_messages", JVal.num (st.user_messages : ℚ)),
            ("assistant_messages", JVal.num (st.assistant_messages : ℚ)),
            ("discovery_started", JVal.bool st.discovery_started),
            ("current_phase", JVal.str st.current_phase),
            ("current_language", JVal.str st.current_language),
            ("plan_generated", JVal.bool st.plan_generated),
            ("student_profile", JVal.obj st.student_profile),
            ("last_interaction", jOptStr st.last_interaction)]

/-- The canned dispatcher reply asking for more conversation before a plan
(main.py lines 119-125 and 193-200). -/
def need_info_text : String :=
  "I\x27d love to create a career plan for you! First, I need to know a bit more about you. Could you tell me:\n1. What grade are you in?\n2. What subjects do you enjoy?\n3. What are your hobbies or interests?"

def status_msg (status message : String) : OutMsg :=
  [("type", JVal.str "status"), ("status", JVal.str status), ("message", JVal.str message)]

def plan_keywords : List String :=
  ["create a career plan", "generate career plan", "make a plan",
   "career plan", "detailed plan", "comprehensive plan",
   "roadmap", "structured plan", "request plan", "get plan"]

/-- Outbound message carrying a generated plan, or a plain response if the
plan is falsy (main.py lines 150-162 and 211-223). -/
def plan_reply (plan : Option JDict) (plan_message now : String) : OutMsg :=
  match plan with
  | some p =>
      if p.isEmpty then
        [("type", JVal.str "response"), ("text", JVal.str plan_message),
         ("timestamp", JVal.str now)]
      else
        [("type", JVal.str "plan_generated"), ("text", JVal.str plan_message),
         ("plan", JVal.obj p), ("timestamp", JVal.str now)]
  | none =>
      [("type", JVal.str "response"), ("text", JVal.str plan_message),
       ("timestamp", JVal.str now)]

/-- The text branch of the websocket dispatcher (main.py lines 79-178), for
a session whose counselor exists. -/
def handle_text (s : CounselorState) (env : Env) (raw : String) : DispatchResult :=
  let user_text := pyStrip raw
  if user_text = "" then
    { sent := [[("type", JVal.str "error"), ("message", JVal.str "Empty message")]],
      state := s, llmCalls := 0 }
  else
    let lower_text := user_text.toLower
    let is_plan_request := plan_keywords.any (fun k => strContainsSub lower_text k)
    let thinking := status_msg "thinking" "AI is analyzing your response..."
    if is_plan_request then
      let st := get_stats s
      if st.user_messages < 3 then
        { sent := [thinking,
            [("type", JVal.str "response"), ("text", JVal.str need_info_text),
             ("phase", JVal.str st.current_phase),
             ("language", JVal.str st.current_language),
             ("timestamp", JVal.str env.now)]],
          state := s, llmCalls := 0 }
      else
        match process_response s env user_text with
        | ((response_text, audio, meta), s1, n1) =>
          let resp1 : OutMsg :=
            [("type", JVal.str "response"), ("text", JVal.str response_text),
             ("audio", jOptStr audio), ("phase", JVal.str st.current_phase),
             ("language", JVal.str st.current_language), ("metadata", jOptJ meta),
             ("timestamp", JVal.str env.now)]
          match generate_career_plan s1 env with
          | ((plan, plan_message), s2, n2) =>
            { sent := [thinking, resp1,
                       status_msg "planning" "Generating your comprehensive career plan...",
                       plan_reply plan plan_message env.now],
              state := s2, llmCalls := n1 + n2 }
    else
      match process_response s env user_text with
      | ((response_text, audio, meta), s1, n1) =>
        let st := get_stats s1
        { sent := [thinking,
            [("type", JVal.str "response"), ("text", JVal.str response_text),
             ("audio", jOptStr audio), ("audio_format", JVal.str "mp3"),
             ("phase", JVal.str st.current_phase),
             ("language", JVal.str st.current_language),
             ("metadata", jOptJ meta), ("timestamp", JVal.str env.now)]],
          state := s1, llmCalls := n1 }

/-- The request_plan branch of the websocket dispatcher (main.py lines
180-223), for a session whose counselor exists. -/
def handle_request_plan (s : CounselorState) (env : Env) : DispatchResult :=
  let st := get_stats s
  if st.user_messages < 3 then
    { sent := [[("type", JVal.str "response"), ("text", JVal.str need_info_text),
        ("phase", JVal.str st.current_phase),
        ("language", JVal.str st.current_language),
        ("timestamp", JVal.str env.now)]],
      state := s, llmCalls := 0 }
  else
    match generate_career_plan s env with
    | ((plan, plan_message), s1, n) =>
      { sent := [status_msg "planning" "Generating your comprehensive career plan...",
                 plan_reply plan plan_message env.now],
        state := s1, llmCalls := n }

/-- The stats branch of the websocket dispatcher (main.py lines 344-357). -/
def handle_stats (s : CounselorState) (env : Env) : DispatchResult :=
  { sent := [[("type", JVal.str "stats"), ("stats", statsToJVal (get_stats s)),
              ("timestamp", JVal.str env.now)]],
    state := s, llmCalls := 0 }

/-- The clear branch of the websocket dispatcher (main.py lines 359-372). -/
def handle_clear (s : CounselorState) (env : Env) : DispatchResult :=
  { sent := [[("type", JVal.str "conversation_cleared"),
              ("message", JVal.str "Conversation history cleared. Starting fresh!"),
              ("timestamp", JVal.str env.now)]],
    state := clear_conversation s, llmCalls := 0 }

-- ==================== concrete environments and states ====================

/-- Concrete detection primitives used at concrete inputs: ASCII isalpha
agrees with Python str.isalpha on the ASCII witnesses below, and none of
the romanized-Hindi patterns match them. -/
def sampleDetect : DetectPrims :=
  { isAlpha := Char.isAlpha, patternSearch := fun _ _ => false }

/-- An environment in which every external call fails: the Gemini calls
raise, gTTS raises, and json.loads rejects every string. -/
def sampleEnv : Env :=
  { prims := sampleDetect
    classifyResult := .err
    firstMessageResult := .err
    discoveryResult := .err
    matchesResult := .err
    uncertaintyResult := .err
    progressResult := .err
    casualResult := .err
    planResult := .err
    ttsResult := none
    jsonLoads := fun _ => none
    now := "2024-01-01T00:00:00"
    nowMonth := "2024-01" }

/-- A stub user conversation entry, as appended for a user turn. -/
def user_stub_msg (c : String) : Msg :=
  { role := "user", content := c, timestamp := "t0" }

/-- A session that has recorded five user turns. -/
def cstate5 : CounselorState :=
  { init_state "cx" with
    conversation := [user_stub_msg "m1", user_stub_msg "m2", user_stub_msg "m3",
                     user_stub_msg "m4", user_stub_msg "m5"] }

/-- A session that has recorded three user turns. -/
def cstate3 : CounselorState :=
  { init_state "c3" with
    conversation := [user_stub_msg "m1", user_stub_msg "m2", user_stub_msg "m3"] }

/-- An LLM plan completion whose JSON object carries a scalar
career_recommendation entry. -/
def planText10 : String := "\x7b\"career_recommendation\": 1\x7d"

/-- Environment whose plan completion parses to a dict with a scalar
career_recommendation (json.loads mirrors Python on exactly that text). -/
def cenv10 : Env :=
  { sampleEnv with
    planResult := .ok planText10
    jsonLoads := fun b =>
      if b = planText10 then some [("career_recommendation", JVal.num 1)] else none }

/-- Environment whose plan completion contains no JSON object at all. -/
def cenv3 : Env :=
  { sampleEnv with planResult := .ok "no json here at all" }

/-- Four Devanagari consonants (U+0915..U+0918), to exercise the Hindi
branch of language detection. -/
def devText : String :=
  String.mk [Char.ofNat 0x915, Char.ofNat 0x916, Char.ofNat 0x917, Char.ofNat 0x918]

/-- Detection primitives whose isalpha marks exactly the Devanagari block:
on devText this agrees with Python str.isalpha. -/
def devPrims : DetectPrims :=
  { isAlpha := fun c => 0x900 ≤ c.toNat && c.toNat ≤ 0x97F
    patternSearch := fun _ _ => false }

/-- The prompt interpolation of generate_career_plan succeeds (its profile
joins do not raise); this is the case whenever the stored profile lists
hold strings, in particular in every fresh session. -/
def plan_prompt_ok (s : CounselorState) : Prop :=
  plan_prompt_joins (_extract_profile_from_conversation s) = Except.ok ()

-- ==================== reachable session states ====================

/-- Session states reachable through the mutating counselor operations; the
dispatcher touches the state only through these. -/
inductive Reachable : CounselorState → Prop where
  | init (sid : String) : Reachable (init_state sid)
  | stepProcess (s : CounselorState) (env : Env) (input : String) :
      Reachable s → Reachable (process_response s env input).2.1
  | stepPlan (s : CounselorState) (env : Env) :
      Reachable s → Reachable (generate_career_plan s env).2.1
  | stepClear (s : CounselorState) :
      Reachable s → Reachable (clear_conversation s)

/-- Every entry of a message list is a user or an assistant turn. -/
def roles_ok_list (t : List Msg) : Prop :=
  ∀ m ∈ t, m.role = "user" ∨ m.role = "assistant"

-- ==================== conversation lemmas ====================

lemma roles_ok_nil : roles_ok_list [] := by
  intro x hx
  simp at hx

lemma generate_career_plan_conv (s : CounselorState) (env : Env) :
    (generate_career_plan s env).2.1.conversation = s.conversation := by
  unfold generate_career_plan generate_career_plan_body
  by_cases h5 : user_count s < 5
  · simp [h5]
  · rcases hj : plan_prompt_joins (_extract_profile_from_conversation s) with u | u
    · simp [h5, hj]
    · rcases hp : env.planResult with t | _
      · rcases hx : extractBraces (pyStrip t) with _ | b
        · rcases hm : plan_generated_message
              (_generate_fallback_plan s env.now env.nowMonth) s.current_language
            with u2 | m2 <;> simp [h5, hj, hp, hx, hm]
        · rcases hl : env.jsonLoads b with _ | d
          · rcases hm : plan_generated_message
                (_generate_fallback_plan s env.now env.nowMonth) s.current_language
              with u2 | m2 <;> simp [h5, hj, hp, hx, hl, hm]
          · by_cases hk : jHasKey
                (_validate_career_plan s.session_id env.now s.conversation.length d)
                "student_profile" = true
            · rcases hu : dictUpdateJ s.student_profile
                  (jGetD (_validate_career_plan s.session_id env.now s.conversation.length d)
                    "student_profile" JVal.null) with u2 | prof
              · simp [h5, hj, hp, hx, hl, hk, hu]
              · rcases hm : plan_generated_message
                    (_validate_career_plan s.session_id env.now s.conversation.length d)
                    s.current_language with u3 | m3 <;>
                  simp [h5, hj, hp, hx, hl, hk, hu, hm]
            · rcases hm : plan_generated_message
                  (_validate_career_plan s.session_id env.now s.conversation.length d)
                  s.current_language with u3 | m3 <;>
                simp [h5, hj, hp, hx, hl, hk, hm]
      · simp [h5, hj, hp]

lemma handle_plan_request_conv (s : CounselorState) (env : Env) :
    (match _handle_plan_request s env with
     | .ok (_, s1, _) => ∃ t, s1.conversation = s.conversation ++ t ∧ roles_ok_list t
     | .error (s1, _) => s1.conversation = s.conversation) := by
  have hgc0 := generate_career_plan_conv s env
  unfold _handle_plan_request
  rcases hg : generate_career_plan s env with ⟨⟨plan, msg⟩, sg, ng⟩
  rw [hg] at hgc0
  have hgc : sg.conversation = s.conversation := hgc0
  by_cases h1 : (s.plan_generated && plan_truthy s.career_plan) = true
  · rw [if_pos h1]
    rcases he : existing_plan_message s with u | m
    · exact rfl
    · exact ⟨[], by simp, roles_ok_nil⟩
  · rw [if_neg h1]
    by_cases h5 : user_count s < 5
    · rw [if_pos h5]
      exact ⟨[], by simp, roles_ok_nil⟩
    · rw [if_neg h5]
      simp only []
      by_cases hpt : plan_truthy plan = true
      · rw [if_pos hpt]
        exact ⟨[plan_assistant_msg msg env.now], by simp [hgc], by
          intro x hx
          simp at hx
          subst hx
          right
          rfl⟩
      · rw [if_neg hpt]
        exact ⟨[], by simp [hgc], roles_ok_nil⟩

lemma handle_plan_request_ok_conv {s : CounselorState} {env : Env} {m : String}
    {s1 : CounselorState} {n : Nat}
    (h : _handle_plan_request s env = .ok (m, s1, n)) :
    ∃ t, s1.conversation = s.conversation ++ t ∧ roles_ok_list t := by
  have hc := handle_plan_request_conv s env
  rw [h] at hc
  exact hc

lemma handle_plan_request_err_conv {s : CounselorState} {env : Env}
    {s1 : CounselorState} {n : Nat}
    (h : _handle_plan_request s env = .error (s1, n)) :
    s1.conversation = s.conversation := by
  have hc := handle_plan_request_conv s env
  rw [h] at hc
  exact hc

lemma intent_branch_conv (s : CounselorState) (env : Env) (intent : JVal) :
    (match intent_branch s env intent with
     | .ok (_, s1, _) => ∃ t, s1.conversation = s.conversation ++ t ∧ roles_ok_list t
     | .error (s1, _) => s1.conversation = s.conversation) := by
  unfold intent_branch
  by_cases c1 : jEqStr intent "request_plan" = true
  · rw [if_pos c1]
    rcases hh : _handle_plan_request s env with ⟨s1, n⟩ | ⟨resp, s1, n⟩
    · exact handle_plan_request_err_conv hh
    · exact handle_plan_request_ok_conv hh
  · rw [if_neg c1]
    by_cases c2 : (jEqStr intent "greeting" && !s.discovery_started) = true
    · rw [if_pos c2]
      exact ⟨[], by simp, roles_ok_nil⟩
    · rw [if_neg c2]
      by_cases c3 : jEqStr intent "ready_to_start" = true
      · rw [if_pos c3]
        by_cases d1 : (!s.discovery_started) = true
        · rw [if_pos d1]
          exact ⟨[], by simp, roles_ok_nil⟩
        · rw [if_neg d1]
          exact ⟨[], by simp, roles_ok_nil⟩
      · rw [if_neg c3]
        by_cases c4 : jEqStr intent "career_exploration" = true
        · rw [if_pos c4]
          by_cases d1 : (!s.discovery_started) = true
          · rw [if_pos d1]
            simp only []
            rcases hpp : run_phase_progress
                { s with discovery_started := true, current_phase := "discovery" } env
              with ⟨prog, np⟩
            simp only []
            by_cases d2 : jTruthy (jGetD prog "ready_for_matching" (JVal.bool false)) = true
            · rw [if_pos d2]
              rcases hcm : run_career_matches
                  { s with discovery_started := true, current_phase := "discovery" } env
                with u | r
              · exact rfl
              · exact ⟨[], by simp, roles_ok_nil⟩
            · rw [if_neg d2]
              exact ⟨[], by simp, roles_ok_nil⟩
          · rw [if_neg d1]
            simp only []
            rcases hpp : run_phase_progress s env with ⟨prog, np⟩
            simp only []
            by_cases d2 : jTruthy (jGetD prog "ready_for_matching" (JVal.bool false)) = true
            · rw [if_pos d2]
              rcases hcm : run_career_matches s env with u | r
              · exact rfl
              · exact ⟨[], by simp, roles_ok_nil⟩
            · rw [if_neg d2]
              exact ⟨[], by simp, roles_ok_nil⟩
        · rw [if_neg c4]
          by_cases c5 : jEqStr intent "uncertainty" = true
          · rw [if_pos c5]
            by_cases d1 : (!s.discovery_started) = true
            · rw [if_pos d1]
              exact ⟨[], by simp, roles_ok_nil⟩
            · rw [if_neg d1]
              exact ⟨[], by simp, roles_ok_nil⟩
          · rw [if_neg c5]
            by_cases c6 : jEqStr intent "parental_pressure" = true
            · rw [if_pos c6]
              exact ⟨[], by simp, roles_ok_nil⟩
            · rw [if_neg c6]
              by_cases c7 : jEqStr intent "gratitude" = true
              · rw [if_pos c7]
                by_cases d1 : s.current_phase = "initial"
                · rw [if_pos d1]
                  exact ⟨[], by simp, roles_ok_nil⟩
                · rw [if_neg d1]
                  exact ⟨[], by simp, roles_ok_nil⟩
              · rw [if_neg c7]
                by_cases c8 : jEqStr intent "clarification_question" = true
                · rw [if_pos c8]
                  exact ⟨[], by simp, roles_ok_nil⟩
                · rw [if_neg c8]
                  by_cases c9 : (jEqStr intent "off_topic" || jEqStr intent "general_question") = true
                  · rw [if_pos c9]
                    exact ⟨[], by simp, roles_ok_nil⟩
                  · rw [if_neg c9]
                    by_cases c10 : (s.current_phase == "initial" || !s.discovery_started) = true
                    · rw [if_pos c10]
                      exact ⟨[], by simp, roles_ok_nil⟩
                    · rw [if_neg c10]
                      simp only []
                      rcases hpp : run_phase_progress s env with ⟨prog, np⟩
                      simp only []
                      by_cases d2 : (jTruthy (jGetD prog "ready_for_matching" (JVal.bool false)) &&
                          s.current_phase == "discovery") = true
                      · rw [if_pos d2]
                        rcases hcm : run_career_matches s env with u | r
                        · exact rfl
                        · exact ⟨[], by simp, roles_ok_nil⟩
                      · rw [if_neg d2]
                        exact ⟨[], by simp, roles_ok_nil⟩

lemma intent_branch_ok_conv {s : CounselorState} {env : Env} {intent : JVal}
    {rm : String × Option JVal} {s1 : CounselorState} {n : Nat}
    (h : intent_branch s env intent = .ok (rm, s1, n)) :
    ∃ t, s1.conversation = s.conversation ++ t ∧ roles_ok_list t := by
  have hc := intent_branch_conv s env intent
  rw [h] at hc
  exact hc

lemma intent_branch_err_conv {s : CounselorState} {env : Env} {intent : JVal}
    {s1 : CounselorState} {n : Nat}
    (h : intent_branch s env intent = .error (s1, n)) :
    s1.conversation = s.conversation := by
  have hc := intent_branch_conv s env intent
  rw [h] at hc
  exact hc

lemma prb_tail {s2 : CounselorState} {env : Env} {intent : JVal} {detected ts : String}
    (sb : CounselorState) (us : List Msg)
    (h2 : s2.conversation = sb.conversation ++ us) (hus : roles_ok_list us) :
    (match (match intent_branch s2 env intent with
            | .error (se, ne) => Except.error (se, 1 + ne)
            | .ok ((resp, meta), s3, n3) =>
                Except.ok ((resp, meta),
                  { s3 with conversation := s3.conversation ++
                      [assistant_conv_msg resp detected s3.current_phase ts] },
                  1 + n3)) with
     | Except.ok (_, s1, _) =>
         ∃ t, s1.conversation = sb.conversation ++ t ∧ roles_ok_list t
     | Except.error (s1, _) =>
         ∃ t, s1.conversation = sb.conversation ++ t ∧ roles_ok_list t) := by
  rcases hib : intent_branch s2 env intent with ⟨se, ne⟩ | ⟨⟨resp, meta⟩, s3, n3⟩
  · have hc := intent_branch_err_conv hib
    exact ⟨us, by rw [hc, h2], hus⟩
  · obtain ⟨t, ht, hrt⟩ := intent_branch_ok_conv hib
    refine ⟨us ++ (t ++ [assistant_conv_msg resp detected s3.current_phase ts]), ?_, ?_⟩
    · show s3.conversation ++ [assistant_conv_msg resp detected s3.current_phase ts] =
        sb.conversation ++ (us ++ (t ++ [assistant_conv_msg resp detected s3.current_phase ts]))
      rw [ht, h2]
      simp [List.append_assoc]
    · intro x hx
      simp only [List.mem_append, List.mem_singleton] at hx
      rcases hx with hx | hx | hx
      · exact hus x hx
      · exact hrt x hx
      · subst hx
        right
        rfl

lemma process_response_body_conv (s : CounselorState) (env : Env) (input : String) :
    (match process_response_body s env input with
     | .ok (_, s1, _) => ∃ t, s1.conversation = s.conversation ++ t ∧ roles_ok_list t
     | .error (s1, _) => ∃ t, s1.conversation = s.conversation ++ t ∧ roles_ok_list t) := by
  unfold process_response_body
  by_cases h0 : (decide (input = "") || decide ((pyStrip input).length < 1)) = true
  · rw [if_pos h0]
    exact ⟨[], by simp, roles_ok_nil⟩
  · rw [if_neg h0]
    simp only []
    rcases had : apply_detected s.student_profile
        (_classify_intent { s with current_language := detect_language env.prims input } env).1
      with u | prof
    · exact ⟨[], by simp, roles_ok_nil⟩
    · exact prb_tail s
        [user_conv_msg input (detect_language env.prims input)
          (jGetD (_classify_intent
              { s with current_language := detect_language env.prims input } env).1
            "intent" (JVal.str "general_question")) env.now]
        rfl
        (by
          intro x hx
          simp only [List.mem_singleton] at hx
          subst hx
          left
          rfl)

lemma process_response_conv (s : CounselorState) (env : Env) (input : String) :
    ∃ t, (process_response s env input).2.1.conversation = s.conversation ++ t ∧
      roles_ok_list t := by
  have hc := process_response_body_conv s env input
  unfold process_response
  rcases hb : process_response_body s env input with ⟨s1, n⟩ | ⟨⟨resp, meta⟩, s1, n⟩ <;>
    rw [hb] at hc <;> exact hc

lemma countP_user_assistant (l : List Msg) (h : roles_ok_list l) :
    l.countP (fun m => m.role == "user") + l.countP (fun m => m.role == "assistant") =
      l.length := by
  induction l with
  | nil => simp
  | cons a t ih =>
      have ha := h a (by simp)
      have ht : roles_ok_list t := fun m hm => h m (List.mem_cons_of_mem _ hm)
      have iht := ih ht
      rcases ha with h1 | h1 <;>
        simp [List.countP_cons, h1] <;> omega

lemma reachable_roles_ok {s : CounselorState} (h : Reachable s) :
    roles_ok_list s.conversation := by
  induction h with
  | init sid =>
      intro m hm
      simp [init_state] at hm
  | stepProcess s env input hs ih =>
      obtain ⟨t, ht, hroles⟩ := process_response_conv s env input
      intro m hm
      rw [ht] at hm
      rcases List.mem_append.1 hm with hm | hm
      · exact ih m hm
      · exact hroles m hm
  | stepPlan s env hs ih =>
      intro m hm
      rw [generate_career_plan_conv] at hm
      exact ih m hm
  | stepClear s hs ih =>
      intro m hm
      simp [clear_conversation] at hm

lemma apply_detected_none {prof idata : JDict}
    (h1 : idata.lookup "detected_interests" = none)
    (h2 : idata.lookup "detected_constraints" = none) :
    apply_detected prof idata = Except.ok prof := by
  unfold apply_detected
  rw [h1, h2]
  rfl

lemma intent_branch_general (s : CounselorState) (env : Env) :
    intent_branch s env (JVal.str "general_question") =
      Except.ok ((run_casual_chat env s.current_language, none), s, 1) := by
  unfold intent_branch
  simp [jEqStr]

lemma intent_branch_greeting {s : CounselorState} (env : Env)
    (hd : s.discovery_started = false) :
    intent_branch s env (JVal.str "greeting") =
      Except.ok ((run_first_message env s.current_language, none),
        { s with discovery_started := true, current_phase := "discovery" }, 1) := by
  unfold intent_branch
  simp [jEqStr, hd]

lemma tts_none {env : Env} (h : env.ttsResult = none) (txt : String) :
    text_to_speech_run env txt = none := by
  unfold text_to_speech_run
  show (if tts_clean txt = "" ∨ (tts_clean txt).length < 3 then none else env.ttsResult) = none
  split
  · rfl
  · exact h

lemma generate_career_plan_insufficient (s : CounselorState) (env : Env)
    (h : user_count s < 5) :
    generate_career_plan s env =
      ((none, insufficient_info_message s.current_language), s, 0) := by
  unfold generate_career_plan generate_career_plan_body
  rw [if_pos h]

lemma handle_request_plan_conv (s : CounselorState) (env : Env) :
    ∃ t, (handle_request_plan s env).state.conversation = s.conversation ++ t := by
  unfold handle_request_plan
  by_cases h3 : (get_stats s).user_messages < 3
  · rw [if_pos h3]
    exact ⟨[], by simp⟩
  · rw [if_neg h3]
    have hgc := generate_career_plan_conv s env
    rcases hg : generate_career_plan s env with ⟨⟨plan, msg⟩, sg, ng⟩
    rw [hg] at hgc
    exact ⟨[], by simp; exact hgc⟩

lemma handle_text_conv (s : CounselorState) (env : Env) (raw : String) :
    ∃ t, (handle_text s env raw).state.conversation = s.conversation ++ t := by
  unfold handle_text
  by_cases h0 : pyStrip raw = ""
  · rw [if_pos h0]
    exact ⟨[], by simp⟩
  · rw [if_neg h0]
    simp only []
    by_cases hk : (plan_keywords.any fun k => strContainsSub (pyStrip raw).toLower k) = true
    · rw [if_pos hk]
      by_cases h3 : (get_stats s).user_messages < 3
      · rw [if_pos h3]
        exact ⟨[], by simp⟩
      · rw [if_neg h3]
        obtain ⟨t1, ht1, _⟩ := process_response_conv s env (pyStrip raw)
        rcases hpr : process_response s env (pyStrip raw) with ⟨⟨rt, au, me⟩, s1, n1⟩
        rw [hpr] at ht1
        have ht1c : s1.conversation = s.conversation ++ t1 := ht1
        have hgc := generate_career_plan_conv s1 env
        rcases hg : generate_career_plan s1 env with ⟨⟨plan, msg⟩, s2, n2⟩
        rw [hg] at hgc
        have hgcc : s2.conversation = s1.conversation := hgc
        exact ⟨t1, by simp only []; rw [hgcc, ht1c]⟩
    · rw [if_neg hk]
      obtain ⟨t1, ht1, _⟩ := process_response_conv s env (pyStrip raw)
      rcases hpr : process_response s env (pyStrip raw) with ⟨⟨rt, au, me⟩, s1, n1⟩
      rw [hpr] at ht1
      exact ⟨t1, ht1⟩

-- ==================== claim theorems ====================

/-- C4: clear_conversation resets the conversation (all turn counts to 0),
the phase to initial, and the student profile to its empty default, and it
is idempotent: clearing twice equals clearing once. -/
theorem c4_clear_resets (s : CounselorState) :
    (clear_conversation s).conversation = [] ∧
    (get_stats (clear_conversation s)).total_messages = 0 ∧
    (get_stats (clear_conversation s)).user_messages = 0 ∧
    (get_stats (clear_conversation s)).assistant_messages = 0 ∧
    (clear_conversation s).current_phase = "initial" ∧
    (clear_conversation s).student_profile = default_student_profile ∧
    clear_conversation (clear_conversation s) = clear_conversation s :=
  ⟨rfl, rfl, rfl, rfl, rfl, rfl, rfl⟩

/-- C6: a text message whose payload is empty or whitespace-only makes the
dispatcher reply with exactly one error message reading Empty message; the
counselor is never invoked (no LLM calls) and the session state is not
mutated. -/
theorem c6_empty_text_rejected (s : CounselorState) (env : Env) (raw : String)
    (h : pyStrip raw = "") :
    handle_text s env raw =
      { sent := [[("type", JVal.str "error"), ("message", JVal.str "Empty message")]],
        state := s, llmCalls := 0 } := by
  unfold handle_text
  rw [if_pos h]

/-- Witness for C6 at the whitespace-only payload. -/
theorem c6_empty_text_rejected_witness :
    pyStrip "   " = "" ∧
    handle_text (init_state "w6") sampleEnv "   " =
      { sent := [[("type", JVal.str "error"), ("message", JVal.str "Empty message")]],
        state := init_state "w6", llmCalls := 0 } :=
  ⟨rfl, c6_empty_text_rejected (init_state "w6") sampleEnv "   " rfl⟩

/-- C7: the conversation history is append-only: process_response,
generate_career_plan and the text/request_plan dispatcher branches only
ever extend the existing sequence, and clear_conversation empties it. -/
theorem c7_conversation_append_only :
    (∀ s env input, ∃ t,
      (process_response s env input).2.1.conversation = s.conversation ++ t) ∧
    (∀ s env, (generate_career_plan s env).2.1.conversation = s.conversation) ∧
    (∀ s env raw, ∃ t,
      (handle_text s env raw).state.conversation = s.conversation ++ t) ∧
    (∀ s env, ∃ t,
      (handle_request_plan s env).state.conversation = s.conversation ++ t) ∧
    (∀ s, (clear_conversation s).conversation = []) := by
  refine ⟨?_, ?_, ?_, ?_, ?_⟩
  · intro s env input
    obtain ⟨t, ht, _⟩ := process_response_conv s env input
    exact ⟨t, ht⟩
  · intro s env
    exact generate_career_plan_conv s env
  · intro s env raw
    exact handle_text_conv s env raw
  · intro s env
    exact handle_request_plan_conv s env
  · intro s
    rfl

/-- C9: in every reachable session state, total_messages reported by
get_stats equals user_messages plus assistant_messages, because every
conversation entry carries role user or assistant. -/
theorem c9_stats_total (s : CounselorState) (h : Reachable s) :
    (get_stats s).total_messages =
      (get_stats s).user_messages + (get_stats s).assistant_messages := by
  have hr := reachable_roles_ok h
  exact (countP_user_assistant s.conversation hr).symm

/-- Witness for C9 at the fresh initial session. -/
theorem c9_stats_total_witness :
    Reachable (init_state "w9") ∧
    (get_stats (init_state "w9")).total_messages =
      (get_stats (init_state "w9")).user_messages +
        (get_stats (init_state "w9")).assistant_messages :=
  ⟨Reachable.init "w9", c9_stats_total (init_state "w9") (Reachable.init "w9")⟩

/-- C10 counterexample: in a session with five user turns, a plan
completion whose career_recommendation entry is the scalar 1 makes
generate_career_plan return None as the plan while the session state HAS
changed: plan_generated flips from false to true (the plan is saved and
the phase set to planning) before the user-message rendering raises. -/
theorem c10_counterexample :
    (generate_career_plan cstate5 cenv10).1.1 = none ∧
    (generate_career_plan cstate5 cenv10).2.1.plan_generated = true ∧
    cstate5.plan_generated = false :=
  ⟨by with_unfolding_all rfl, by with_unfolding_all rfl, rfl⟩

/-- C10 (amended): when generate_career_plan returns None because of
insufficient user turns or because the LLM call itself raised, the session
state is unchanged.  (When an exception is raised after the parsed plan has
been saved, None is returned although career_plan, plan_generated and
current_phase have already been mutated.) -/
theorem c10_none_state_unchanged (s : CounselorState) (env : Env)
    (h : user_count s < 5 ∨ env.planResult = LLMOutcome.err) :
    (generate_career_plan s env).1.1 = none ∧
    (generate_career_plan s env).2.1 = s := by
  rcases h with h5 | herr
  · rw [generate_career_plan_insufficient s env h5]
    exact ⟨rfl, rfl⟩
  · by_cases h5 : user_count s < 5
    · rw [generate_career_plan_insufficient s env h5]
      exact ⟨rfl, rfl⟩
    · unfold generate_career_plan generate_career_plan_body
      rw [if_neg h5]
      rcases hj : plan_prompt_joins (_extract_profile_from_conversation s) with u | u
      · refine ⟨?_, ?_⟩ <;> simp [hj]
      · refine ⟨?_, ?_⟩ <;> simp [hj, herr]

/-- Witness for the amended C10 at a fresh session with a failing LLM. -/
theorem c10_none_state_unchanged_witness :
    (user_count (init_state "wt") < 5 ∨ sampleEnv.planResult = LLMOutcome.err) ∧
    (generate_career_plan (init_state "wt") sampleEnv).1.1 = none ∧
    (generate_career_plan (init_state "wt") sampleEnv).2.1 = init_state "wt" :=
  ⟨Or.inl (by decide),
   (c10_none_state_unchanged (init_state "wt") sampleEnv (Or.inl (by decide))).1,
   (c10_none_state_unchanged (init_state "wt") sampleEnv (Or.inl (by decide))).2⟩

/-- C1: a request_plan message in a session with fewer than 3 recorded user
turns is answered with the canned need-more-info response and the plan
path is not entered; with fewer than 5 user turns (the counselor variant of
the threshold) no LLM call is ever made — generate_career_plan returns its
insufficient-information message before reaching the model call — and the
session state is unchanged. -/
theorem c1_request_plan_guarded (s : CounselorState) (env : Env)
    (h : (get_stats s).user_messages < 5) :
    (handle_request_plan s env).llmCalls = 0 ∧
    (handle_request_plan s env).state = s ∧
    ((get_stats s).user_messages < 3 →
      (handle_request_plan s env).sent =
        [[("type", JVal.str "response"), ("text", JVal.str need_info_text),
          ("phase", JVal.str s.current_phase),
          ("language", JVal.str s.current_language),
          ("timestamp", JVal.str env.now)]]) ∧
    (3 ≤ (get_stats s).user_messages →
      (handle_request_plan s env).sent =
        [status_msg "planning" "Generating your comprehensive career plan...",
         [("type", JVal.str "response"),
          ("text", JVal.str (insufficient_info_message s.current_language)),
          ("timestamp", JVal.str env.now)]]) := by
  have hu : user_count s = (get_stats s).user_messages := rfl
  unfold handle_request_plan
  by_cases h3 : (get_stats s).user_messages < 3
  · rw [if_pos h3]
    exact ⟨rfl, rfl, fun _ => rfl, fun hge => absurd h3 (by omega)⟩
  · rw [if_neg h3]
    rw [generate_career_plan_insufficient s env (by omega)]
    exact ⟨rfl, rfl, fun hlt => absurd hlt h3, fun _ => rfl⟩

/-- Witness for C1 at a session with three user turns. -/
theorem c1_request_plan_guarded_witness :
    (get_stats cstate3).user_messages < 5 ∧
    (handle_request_plan cstate3 sampleEnv).llmCalls = 0 ∧
    (handle_request_plan cstate3 sampleEnv).state = cstate3 ∧
    (handle_request_plan cstate3 sampleEnv).sent =
      [status_msg "planning" "Generating your comprehensive career plan...",
       [("type", JVal.str "response"),
        ("text", JVal.str (insufficient_info_message cstate3.current_language)),
        ("timestamp", JVal.str sampleEnv.now)]] :=
  ⟨by decide,
   (c1_request_plan_guarded cstate3 sampleEnv (by decide)).1,
   (c1_request_plan_guarded cstate3 sampleEnv (by decide)).2.1,
   (c1_request_plan_guarded cstate3 sampleEnv (by decide)).2.2.2 (by decide)⟩

/-- C2: language detection is a pure function of its input (deterministic by
construction), and for any isalpha/pattern oracles: a Devanagari-to-alpha
ratio above 0.3 yields hi; a ratio in (0.05, 0.3] yields hinglish; otherwise
— alpha-free text or ratio at most 0.05 — absent a romanized-Hindi pattern
signal above 0.25 matches per word, it yields en.  Ratios are stated as
exact rational comparisons of the integer counts. -/
theorem c2_detect_language_thresholds (P : DetectPrims) (text : String) :
    (0 < alphaCount P (pyStrip text) →
      3 * alphaCount P (pyStrip text) < 10 * devanagariCount (pyStrip text) →
      detect_language P text = "hi") ∧
    (0 < alphaCount P (pyStrip text) →
      10 * devanagariCount (pyStrip text) ≤ 3 * alphaCount P (pyStrip text) →
      alphaCount P (pyStrip text) < 20 * devanagariCount (pyStrip text) →
      detect_language P text = "hinglish") ∧
    ((alphaCount P (pyStrip text) = 0 ∨
        20 * devanagariCount (pyStrip text) ≤ alphaCount P (pyStrip text)) →
      4 * hinglishMatchCount P (pyStrip text).toLower ≤
        wordCountOf (pyStrip text).toLower →
      detect_language P text = "en") := by
  by_cases hemp : pyStrip text = ""
  · have ha : alphaCount P (pyStrip text) = 0 := by
      rw [hemp]
      rfl
    refine ⟨?_, ?_, ?_⟩
    · intro h1 _
      rw [ha] at h1
      exact absurd h1 (by omega)
    · intro h1 _ _
      rw [ha] at h1
      exact absurd h1 (by omega)
    · intro _ _
      simp only [detect_language]
      rw [if_pos hemp]
  · refine ⟨?_, ?_, ?_⟩
    · intro h1 h2
      simp only [detect_language]
      rw [if_neg hemp, if_pos ⟨h1, h2⟩]
    · intro h1 h2 h3
      simp only [detect_language]
      rw [if_neg hemp, if_neg (by omega), if_pos ⟨h1, h3⟩]
    · intro h1 h2
      simp only [detect_language]
      rw [if_neg hemp, if_neg (by omega), if_neg (by omega), if_neg (by omega)]

/-- Witness for C2: four Devanagari consonants have ratio 1 and are
detected as hi. -/
theorem c2_detect_language_thresholds_witness :
    0 < alphaCount devPrims (pyStrip devText) ∧
    3 * alphaCount devPrims (pyStrip devText) <
      10 * devanagariCount (pyStrip devText) ∧
    detect_language devPrims devText = "hi" :=
  ⟨by decide, by decide,
   (c2_detect_language_thresholds devPrims devText).1 (by decide) (by decide)⟩

/-- C3: whenever the plan completion contains no brace block, or its
extracted block fails JSON parsing, generate_career_plan returns the
hard-coded fallback plan (saving it and setting plan_generated), and that
fallback plan contains all seven required top-level sections. -/
theorem c3_parse_failure_fallback (s : CounselorState) (env : Env) (t : String)
    (h5 : ¬ user_count s < 5)
    (hok : plan_prompt_ok s)
    (hllm : env.planResult = LLMOutcome.ok t)
    (hparse : extractBraces (pyStrip t) = none ∨
      ∃ b, extractBraces (pyStrip t) = some b ∧ env.jsonLoads b = none) :
    (generate_career_plan s env).1.1 =
      some (_generate_fallback_plan s env.now env.nowMonth) ∧
    (generate_career_plan s env).2.1 =
      { s with
        career_plan := some (_generate_fallback_plan s env.now env.nowMonth)
        plan_generated := true } ∧
    requiredSections.all
      (fun k => ((_generate_fallback_plan s env.now env.nowMonth).lookup k).isSome) =
      true := by
  have hmsg : plan_generated_message (_generate_fallback_plan s env.now env.nowMonth)
      s.current_language =
      Except.ok (plan_generated_message_text "Software Engineering" s.current_language) :=
    rfl
  have hgen : generate_career_plan s env =
      ((some (_generate_fallback_plan s env.now env.nowMonth),
        plan_generated_message_text "Software Engineering" s.current_language),
       { s with
         career_plan := some (_generate_fallback_plan s env.now env.nowMonth)
         plan_generated := true }, 1) := by
    unfold generate_career_plan generate_career_plan_body
    rw [if_neg h5]
    rcases hparse with hp | ⟨b, hb, hl⟩
    · simp only [show plan_prompt_joins (_extract_profile_from_conversation s) =
        Except.ok () from hok, hllm, hp, hmsg]
    · simp only [show plan_prompt_joins (_extract_profile_from_conversation s) =
        Except.ok () from hok, hllm, hb, hl, hmsg]
  refine ⟨by rw [hgen], by rw [hgen], ?_⟩
  with_unfolding_all rfl

/-- Witness for C3 in a five-turn session whose plan completion holds no
JSON at all. -/
theorem c3_parse_failure_fallback_witness :
    (¬ user_count cstate5 < 5) ∧
    plan_prompt_ok cstate5 ∧
    cenv3.planResult = LLMOutcome.ok "no json here at all" ∧
    extractBraces (pyStrip "no json here at all") = none ∧
    ((generate_career_plan cstate5 cenv3).1.1 =
      some (_generate_fallback_plan cstate5 cenv3.now cenv3.nowMonth) ∧
     (generate_career_plan cstate5 cenv3).2.1 =
      { cstate5 with
        career_plan := some (_generate_fallback_plan cstate5 cenv3.now cenv3.nowMonth)
        plan_generated := true } ∧
     requiredSections.all
       (fun k => ((_generate_fallback_plan cstate5 cenv3.now cenv3.nowMonth).lookup k).isSome) =
       true) :=
  ⟨by decide, by with_unfolding_all rfl, rfl, by with_unfolding_all rfl,
   c3_parse_failure_fallback cstate5 cenv3 "no json here at all" (by decide)
     (by with_unfolding_all rfl) rfl (Or.inl (by with_unfolding_all rfl))⟩

/-- C5: when the external calls fail — the classification, casual-chat and
plan LLM calls raise and gTTS raises — none of _classify_intent,
process_response, generate_career_plan raises to its caller (each is total
in the model, mirroring the broad except wrappers): classification returns
its fixed default dict, process_response returns the localized canned
fallback string for the detected language with no audio, and
generate_career_plan returns None with its localized error (or
insufficient-info) message. -/
theorem c5_external_failures_degrade (s : CounselorState) (env : Env) (input : String)
    (hcl : env.classifyResult = LLMOutcome.err)
    (hcas : env.casualResult = LLMOutcome.err)
    (hpl : env.planResult = LLMOutcome.err)
    (htt : env.ttsResult = none) :
    _classify_intent s env =
      ([("intent", JVal.str "general_question"), ("confidence", JVal.num (1/2 : ℚ)),
        ("language", JVal.str s.current_language)], 1) ∧
    (process_response s env input).1 =
      (if (decide (input = "") || decide ((pyStrip input).length < 1)) = true then
        (empty_response_message s.current_language, none, none)
      else
        (casual_chat_fallback (detect_language env.prims input), none, none)) ∧
    (generate_career_plan s env).1 =
      (none, if user_count s < 5 then insufficient_info_message s.current_language
             else plan_error_message s.current_language) := by
  have hclassify : ∀ s' : CounselorState, _classify_intent s' env =
      ([("intent", JVal.str "general_question"), ("confidence", JVal.num (1/2 : ℚ)),
        ("language", JVal.str s'.current_language)], 1) := by
    intro s'
    unfold _classify_intent
    rw [hcl]
  have hrc : ∀ lang, run_casual_chat env lang = casual_chat_fallback lang := by
    intro lang
    unfold run_casual_chat
    rw [hcas]
  refine ⟨hclassify s, ?_, ?_⟩
  · by_cases h0 : (decide (input = "") || decide ((pyStrip input).length < 1)) = true
    · rw [if_pos h0]
      unfold process_response process_response_body
      simp only [h0, if_true, tts_none htt]
    · rw [if_neg h0]
      have had : apply_detected s.student_profile
          [("intent", JVal.str "general_question"), ("confidence", JVal.num (1/2 : ℚ)),
           ("language", JVal.str (detect_language env.prims input))] =
          Except.ok s.student_profile :=
        apply_detected_none rfl rfl
      have hint : jGetD
          [("intent", JVal.str "general_question"), ("confidence", JVal.num (1/2 : ℚ)),
           ("language", JVal.str (detect_language env.prims input))]
          "intent" (JVal.str "general_question") = JVal.str "general_question" := rfl
      unfold process_response process_response_body
      rw [if_neg h0]
      simp only []
      rw [hclassify]
      simp only []
      rw [had]
      simp only []
      rw [hint, intent_branch_general]
      simp only []
      rw [hrc, tts_none htt]
  · by_cases h5 : user_count s < 5
    · rw [if_pos h5, generate_career_plan_insufficient s env h5]
    · rw [if_neg h5]
      unfold generate_career_plan generate_career_plan_body
      rw [if_neg h5]
      rcases hj : plan_prompt_joins (_extract_profile_from_conversation s) with u | u
      · simp [hj]
      · simp [hj, hpl]

/-- Witness for C5 in the all-failures environment. -/
theorem c5_external_failures_degrade_witness :
    sampleEnv.classifyResult = LLMOutcome.err ∧
    sampleEnv.casualResult = LLMOutcome.err ∧
    sampleEnv.planResult = LLMOutcome.err ∧
    sampleEnv.ttsResult = none ∧
    (process_response (init_state "w5") sampleEnv "Hello").1 =
      (if (decide (("Hello" : String) = "") || decide ((pyStrip "Hello").length < 1)) = true then
        (empty_response_message (init_state "w5").current_language, none, none)
      else
        (casual_chat_fallback (detect_language sampleEnv.prims "Hello"), none, none)) :=
  ⟨rfl, rfl, rfl, rfl,
   (c5_external_failures_degrade (init_state "w5") sampleEnv "Hello" rfl rfl rfl rfl).2.1⟩

